import Mathlib

/-!
# Shell bindings (`atom/common/api/atom_api_shell.cc`)

A shallow embedding of the shell-bridge glue: the `ShortcutOperation`
converter, `OnOpenExternalFinished`, `OpenExternalSync`, `OpenExternal`,
`WriteShortcutLink` and `ReadShortcutLink`, over small models of the scripting
values, the argument cursor, the dictionary wrapper, the promise wrapper and the
shortcut record they are written against.  The platform layer
(`platform_util`, `base::win`) is a parameter of every function that calls it,
and each function returns the log of platform calls it made.
-/

set_option autoImplicit false

/-! ## Scripting-engine values -/

namespace v8

/-- Modelled from the spec: the scripting-engine values the glue converts
(`v8::Value`, of the scripting engine).  `int` is a Number holding an integer,
`other` stands for every value the converters used here reject (non-integral
numbers, symbols, ...), `object` is a plain object with its own properties in
definition order, and `function` is a callable object. -/
inductive Value where
  | undefined : Value
  | null : Value
  | bool (b : Bool) : Value
  | int (n : Int) : Value
  | string (s : String) : Value
  | object (props : List (String × Value)) : Value
  | function : Value
  | other : Value

/-- Modelled from the spec: `val->IsObject()` of the engine; functions are
objects, primitives are not. -/
def Value.IsObject : Value → Bool
  | .object _ => true
  | .function => true
  | _ => false

/-- Modelled from the spec: `val->IsFunction()` of the engine. -/
def Value.IsFunction : Value → Bool
  | .function => true
  | _ => false

end v8

/-! ## The binding library: converters, dictionaries, argument cursor -/

namespace base

/-- Modelled from the spec: `base::FilePath`, a filesystem path carried as its
string; the default-constructed path is empty. -/
abbrev FilePath := String

end base

namespace mate

open v8

/-- Shape of a `Converter<T>::FromV8(isolate, val, T* out)`: from the value and
the current content of `out` to the boolean result and the new content of
`out`. -/
abbrev FromV8 (α : Type) := Value → α → Bool × α

/-- Modelled from the spec: `Converter<std::string>::FromV8` (binding library
`native_mate`): succeeds exactly on primitive strings. -/
def Converter_string_FromV8 : FromV8 String
  | .string s, _ => (true, s)
  | _, out => (false, out)

/-- Modelled from the spec: `Converter<base::string16>::FromV8`
(`string16_converter.h`): succeeds exactly on primitive strings. -/
def Converter_string16_FromV8 : FromV8 String
  | .string s, _ => (true, s)
  | _, out => (false, out)

/-- Modelled from the spec: `Converter<base::FilePath>::FromV8`
(`file_path_converter.h`): `null` is accepted and leaves `out` as it was, a
string becomes the path, anything else fails. -/
def Converter_FilePath_FromV8 : FromV8 base.FilePath
  | .null, out => (true, out)
  | .string s, _ => (true, s)
  | _, out => (false, out)

/-- Modelled from the spec: `Converter<int32_t>::FromV8` (binding library
`native_mate`): succeeds exactly on Numbers holding an integer of the signed
32-bit range. -/
def Converter_int_FromV8 : FromV8 Int
  | .int n, out => if -2147483648 ≤ n ∧ n ≤ 2147483647 then (true, n) else (false, out)
  | _, out => (false, out)

/-- Modelled from the spec: `Converter<bool>::FromV8` (binding library
`native_mate`): succeeds exactly on booleans. -/
def Converter_bool_FromV8 : FromV8 Bool
  | .bool b, _ => (true, b)
  | _, out => (false, out)

/-- Modelled from the spec: `mate::Dictionary` (`native_mate/dictionary.h`), a
wrapper around an object, here the object's own properties. -/
structure Dictionary where
  props : List (String × Value)

/-- Modelled from the spec: `mate::Dictionary::CreateEmpty`. -/
def Dictionary.CreateEmpty : Dictionary := ⟨[]⟩

/-- Modelled from the spec: `Converter<Dictionary>::FromV8`: succeeds exactly on
objects that are not functions. -/
def Converter_Dictionary_FromV8 : FromV8 Dictionary := fun val out =>
  if !val.IsObject || val.IsFunction then
    (false, out)
  else
    match val with
    | .object props => (true, ⟨props⟩)
    | _ => (false, out)

/-- Modelled from the spec: `Dictionary::Get(key, T* out)`: false when the
object has no such key, otherwise the result of converting the key's value into
`out`. -/
def Dictionary.Get {α : Type} (conv : FromV8 α) (d : Dictionary) (key : String) (out : α) :
    Bool × α :=
  match d.props.lookup key with
  | some val => conv val out
  | none => (false, out)

/-- Modelled from the spec: `Dictionary::Set(key, val)`: the key's value is
overwritten in place when the object has the key, added at the end otherwise. -/
def Dictionary.Set (d : Dictionary) (key : String) (val : Value) : Dictionary :=
  if (d.props.lookup key).isSome then
    ⟨d.props.map fun kv => if kv.1 == key then (kv.1, val) else kv⟩
  else
    ⟨d.props ++ [(key, val)]⟩

/-- Modelled from the spec: `Dictionary::GetHandle`, the wrapped object. -/
def Dictionary.GetHandle (d : Dictionary) : Value := .object d.props

/-- The exception pending in the engine after a throw. -/
inductive Exception where
  /-- The type error `Insufficient number of arguments.` -/
  | insufficientArguments : Exception
  /-- The type error `Error processing argument at index N, conversion failure ...` -/
  | conversionFailure (index : Nat) : Exception
  /-- An `Error` carrying `message`. -/
  | error (message : String) : Exception
  deriving DecidableEq, Repr

/-- Modelled from the spec: `mate::Arguments` (`native_mate/arguments.h`): the
call's argument values, the cursor `next`, the flag set when a read ran past the
end, and the exception thrown through it, if any. -/
structure Arguments where
  info : List Value
  next : Nat
  insufficient_arguments : Bool
  thrown : Option Exception

/-- Modelled from the spec: `Arguments::Length`. -/
def Arguments.Length (args : Arguments) : Nat := args.info.length

/-- Modelled from the spec: `Arguments::GetNext(T* out)`: past the end it sets
`insufficient_arguments` and fails; otherwise it converts the argument under the
cursor and advances the cursor only when the conversion succeeded. -/
def Arguments.GetNext {α : Type} (conv : FromV8 α) (args : Arguments) (out : α) :
    Bool × α × Arguments :=
  match args.info.get? args.next with
  | none => (false, out, { args with insufficient_arguments := true })
  | some val =>
    match conv val out with
    | (true, out') => (true, out', { args with next := args.next + 1 })
    | (false, out') => (false, out', args)

/-- Modelled from the spec: `Arguments::ThrowError()`: a type error that reports
either the missing argument or the argument under the cursor. -/
def Arguments.ThrowError (args : Arguments) : Arguments :=
  if args.insufficient_arguments then
    { args with thrown := some .insufficientArguments }
  else
    { args with thrown := some (.conversionFailure args.next) }

/-- Modelled from the spec: `Arguments::ThrowError(message)`. -/
def Arguments.ThrowErrorMessage (args : Arguments) (message : String) : Arguments :=
  { args with thrown := some (.error message) }

/-- The argument cursor a bound method receives after the dispatcher has taken
the method's first parameter from `first`: the cursor stands on the second
argument and nothing has been thrown. -/
def Arguments.afterFirst (first : Value) (rest : List Value) : Arguments :=
  { info := first :: rest, next := 1, insufficient_arguments := false, thrown := none }

end mate

/-! ## Shortcut records of the platform -/

namespace base.win

/-- Modelled from the spec: `base::win::ShortcutOperation` (`base/win/shortcut.h`). -/
inductive ShortcutOperation where
  | SHORTCUT_CREATE_ALWAYS
  | SHORTCUT_REPLACE_EXISTING
  | SHORTCUT_UPDATE_EXISTING
  deriving DecidableEq, Repr

/-- Modelled from the spec: `base::win::ShortcutProperties`
(`base/win/shortcut.h`): the fields and the bit set `options`
recording which of them have been set. -/
structure ShortcutProperties where
  target : base.FilePath
  working_dir : base.FilePath
  arguments : String
  description : String
  icon : base.FilePath
  icon_index : Int
  app_id : String
  options : Nat
  deriving DecidableEq, Repr

namespace ShortcutProperties

def PROPERTIES_TARGET : Nat := 1
def PROPERTIES_WORKING_DIR : Nat := 2
def PROPERTIES_ARGUMENTS : Nat := 4
def PROPERTIES_DESCRIPTION : Nat := 8
def PROPERTIES_ICON : Nat := 16
def PROPERTIES_APP_ID : Nat := 32
def PROPERTIES_ALL : Nat := 63

/-- Modelled from the spec: the default-constructed record: empty fields, icon
index `-1`, no property set. -/
def new : ShortcutProperties :=
  { target := "", working_dir := "", arguments := "", description := "",
    icon := "", icon_index := -1, app_id := "", options := 0 }

def set_target (p : ShortcutProperties) (target_in : base.FilePath) : ShortcutProperties :=
  { p with target := target_in, options := p.options ||| PROPERTIES_TARGET }

def set_working_dir (p : ShortcutProperties) (working_dir_in : base.FilePath) :
    ShortcutProperties :=
  { p with working_dir := working_dir_in, options := p.options ||| PROPERTIES_WORKING_DIR }

def set_arguments (p : ShortcutProperties) (arguments_in : String) : ShortcutProperties :=
  { p with arguments := arguments_in, options := p.options ||| PROPERTIES_ARGUMENTS }

def set_description (p : ShortcutProperties) (description_in : String) : ShortcutProperties :=
  { p with description := description_in, options := p.options ||| PROPERTIES_DESCRIPTION }

def set_icon (p : ShortcutProperties) (icon_in : base.FilePath) (icon_index_in : Int) :
    ShortcutProperties :=
  { p with icon := icon_in, icon_index := icon_index_in,
           options := p.options ||| PROPERTIES_ICON }

def set_app_id (p : ShortcutProperties) (app_id_in : String) : ShortcutProperties :=
  { p with app_id := app_id_in, options := p.options ||| PROPERTIES_APP_ID }

/-- Whether the property with bit `bit` has been set on the record. -/
def isSet (p : ShortcutProperties) (bit : Nat) : Bool := p.options &&& bit != 0

end ShortcutProperties

end base.win

/-! ## Promise wrapper and platform options -/

namespace atom.util

/-- Modelled from the spec: `atom::util::Promise` (`promise_util.h`), the
completion handle: pending when created, then settled, either resolved with no
value or rejected with an error message. -/
inductive Promise where
  | pending : Promise
  | resolved : Promise
  | rejected (message : String) : Promise
  deriving DecidableEq, Repr

/-- Modelled from the spec: `new atom::util::Promise(isolate)`: a pending
handle. -/
def Promise.new : Promise := .pending

/-- Modelled from the spec: `Promise::Resolve()`: settles a pending handle with
no value; on a settled handle a second settlement attempt is a no-op. -/
def Promise.Resolve : Promise → Promise
  | .pending => .resolved
  | settled => settled

/-- Modelled from the spec: `Promise::RejectWithErrorMessage(message)`: settles
a pending handle with the error message; on a settled handle a second
settlement attempt is a no-op. -/
def Promise.RejectWithErrorMessage : Promise → String → Promise
  | .pending, message => .rejected message
  | settled, _ => settled

/-- Whether the handle has left the pending state. -/
def Promise.isSettled : Promise → Bool
  | .pending => false
  | _ => true

end atom.util

namespace platform_util

/-- Modelled from the spec: `platform_util::OpenExternalOptions`
(`platform_util.h`): whether to bring the opened application to the foreground,
and a working directory. -/
structure OpenExternalOptions where
  activate : Bool
  working_dir : base.FilePath
  deriving DecidableEq, Repr

/-- Modelled from the spec: the default-constructed options, the platform's
defaults: activate, no working directory. -/
def OpenExternalOptions.new : OpenExternalOptions :=
  { activate := true, working_dir := "" }

end platform_util

/-! ## The glue (`atom_api_shell.cc`) -/

namespace atom_api_shell

open v8 mate base.win atom.util platform_util

/-- Embedding of `mate::Converter<base::win::ShortcutOperation>::FromV8`
(lines 22-40). -/
def Converter_ShortcutOperation_FromV8 : FromV8 ShortcutOperation := fun val out =>
  match Converter_string_FromV8 val "" with
  | (false, _) => (false, out)
  | (true, operation) =>
    if operation.isEmpty || operation == "create" then
      (true, .SHORTCUT_CREATE_ALWAYS)
    else if operation == "update" then
      (true, .SHORTCUT_UPDATE_EXISTING)
    else if operation == "replace" then
      (true, .SHORTCUT_REPLACE_EXISTING)
    else
      (false, out)

/-- One call of the platform's `CreateOrUpdateShortcutLink`. -/
structure ShortcutCall where
  shortcut_path : base.FilePath
  properties : ShortcutProperties
  operation : ShortcutOperation
  deriving DecidableEq, Repr

/-- What a run of `WriteShortcutLink` leaves behind: the value returned, the
argument cursor (with the exception thrown, if any) and the platform calls made,
in order. -/
structure WriteOutcome where
  ret : Bool
  args : Arguments
  calls : List ShortcutCall

/-- The block of `WriteShortcutLink` that fills the record from the properties
object (lines 122-137).  `path`, `str` and `index` are the three locals shared
by the reads; `index` is uninitialised in the source and read only after a
successful `Get`, so its initial content here is immaterial. -/
def WriteShortcutLink_properties (options : Dictionary) : ShortcutProperties :=
  let properties := ShortcutProperties.new
  let path : base.FilePath := ""
  let str : String := ""
  let index : Int := 0
  let (ok, path) := options.Get Converter_FilePath_FromV8 "target" path
  let properties := if ok then properties.set_target path else properties
  let (ok, path) := options.Get Converter_FilePath_FromV8 "cwd" path
  let properties := if ok then properties.set_working_dir path else properties
  let (ok, str) := options.Get Converter_string16_FromV8 "args" str
  let properties := if ok then properties.set_arguments str else properties
  let (ok, str) := options.Get Converter_string16_FromV8 "description" str
  let properties := if ok then properties.set_description str else properties
  let (okIcon, path) := options.Get Converter_FilePath_FromV8 "icon" path
  let (okIndex, index) :=
    if okIcon then options.Get Converter_int_FromV8 "iconIndex" index else (false, index)
  let properties := if okIcon && okIndex then properties.set_icon path index else properties
  let (ok, str) := options.Get Converter_string16_FromV8 "appUserModelId" str
  let properties := if ok then properties.set_app_id str else properties
  properties

/-- Embedding of `WriteShortcutLink` (lines 112-142).  `CreateOrUpdateShortcutLink`
is the platform function. -/
def WriteShortcutLink
    (CreateOrUpdateShortcutLink :
      base.FilePath → ShortcutProperties → ShortcutOperation → Bool)
    (shortcut_path : base.FilePath) (args : Arguments) : WriteOutcome :=
  let operation := ShortcutOperation.SHORTCUT_CREATE_ALWAYS
  let (_, operation, args) := args.GetNext Converter_ShortcutOperation_FromV8 operation
  let options := Dictionary.CreateEmpty
  let (got, options, args) := args.GetNext Converter_Dictionary_FromV8 options
  if !got then
    { ret := false, args := args.ThrowError, calls := [] }
  else
    let properties := WriteShortcutLink_properties options
    { ret := CreateOrUpdateShortcutLink shortcut_path properties operation,
      args := args,
      calls := [⟨shortcut_path, properties, operation⟩] }

/-- What a run of `ReadShortcutLink` leaves behind: the value returned, the
argument cursor (with the exception thrown, if any) and the paths handed to the
platform's `ResolveShortcutProperties`, in order. -/
structure ReadOutcome where
  ret : Value
  args : Arguments
  calls : List (base.FilePath × Nat)

/-- Embedding of `ReadShortcutLink` (lines 144-163).  `ResolveShortcutProperties` is the
platform function: from the path, the requested property bits and the record it
writes into, to its boolean result and the record afterwards. -/
def ReadShortcutLink
    (ResolveShortcutProperties :
      base.FilePath → Nat → ShortcutProperties → Bool × ShortcutProperties)
    (args : Arguments) (path : base.FilePath) : ReadOutcome :=
  let options := Dictionary.CreateEmpty
  let properties := ShortcutProperties.new
  let (resolved, properties) :=
    ResolveShortcutProperties path ShortcutProperties.PROPERTIES_ALL properties
  if !resolved then
    { ret := .null,
      args := args.ThrowErrorMessage "Failed to read shortcut link",
      calls := [(path, ShortcutProperties.PROPERTIES_ALL)] }
  else
    let options := options.Set "target" (.string properties.target)
    let options := options.Set "cwd" (.string properties.working_dir)
    let options := options.Set "args" (.string properties.arguments)
    let options := options.Set "description" (.string properties.description)
    let options := options.Set "icon" (.string properties.icon)
    let options := options.Set "iconIndex" (.int properties.icon_index)
    let options := options.Set "appUserModelId" (.string properties.app_id)
    { ret := options.GetHandle,
      args := args,
      calls := [(path, ShortcutProperties.PROPERTIES_ALL)] }

/-- The C string `s.c_str()` read back as a string, as happens when it is passed
where a string is expected: the characters of `s` before its first NUL. -/
def c_str (s : String) : String :=
  String.mk (s.data.takeWhile fun c => c != Char.ofNat 0)

/-- Embedding of `OnOpenExternalFinished` (lines 47-62): the completion callback
bound to the promise.  The rejection message is `error.c_str()` (line 61).  The
lock and the handle, microtask and context scopes it opens first have no
counterpart in the model. -/
def OnOpenExternalFinished (promise : Promise) (error : String) : Promise :=
  if error.isEmpty then
    promise.Resolve
  else
    promise.RejectWithErrorMessage (c_str error)

/-- What a run of `OpenExternalSync` leaves behind: the value returned, the
argument cursor and the platform calls made, in order. -/
structure OpenSyncOutcome where
  ret : Bool
  args : Arguments
  calls : List (String × OpenExternalOptions)

/-- Embedding of `OpenExternalSync` (lines 64-81).  The parameter `OpenExternal` is the
platform's synchronous `platform_util::OpenExternal`. -/
def OpenExternalSync (OpenExternal : String → OpenExternalOptions → Bool)
    (url : String) (args : Arguments) : OpenSyncOutcome :=
  let options := OpenExternalOptions.new
  let (options, args) :=
    if args.Length ≥ 2 then
      let obj := Dictionary.CreateEmpty
      let (got, obj, args) := args.GetNext Converter_Dictionary_FromV8 obj
      if got then
        let (_, activate) := obj.Get Converter_bool_FromV8 "activate" options.activate
        let options := { options with activate := activate }
        let (_, working_dir) :=
          obj.Get Converter_FilePath_FromV8 "workingDirectory" options.working_dir
        let options := { options with working_dir := working_dir }
        (options, args)
      else
        (options, args)
    else
      (options, args)
  { ret := OpenExternal url options, args := args, calls := [(url, options)] }

/-- The completion callbacks `errors`, run in order on the promise. -/
def runCallbacks (promise : Promise) (errors : List String) : Promise :=
  errors.foldl OnOpenExternalFinished promise

/-- What a run of the asynchronous `OpenExternal` leaves behind: the promise
behind the returned handle as it is when the call returns, the argument cursor
and the platform calls made, in order. -/
structure OpenOutcome where
  promise : Promise
  args : Arguments
  calls : List (String × OpenExternalOptions)

/-- Embedding of `OpenExternal` (lines 83-109).  The parameter `platform` is the asynchronous
`platform_util::OpenExternal`, given by the error strings with which it runs
the bound completion callback before it returns (the empty list when it has not
run the callback by then); callbacks it runs later are applied to the returned
promise with `runCallbacks`. -/
def OpenExternal (platform : String → OpenExternalOptions → List String)
    (url : String) (args : Arguments) : OpenOutcome :=
  let promise := Promise.new
  let options := OpenExternalOptions.new
  let (options, args) :=
    if args.Length ≥ 2 then
      let obj := Dictionary.CreateEmpty
      let (got, obj, args) := args.GetNext Converter_Dictionary_FromV8 obj
      if got then
        let (_, activate) := obj.Get Converter_bool_FromV8 "activate" options.activate
        let options := { options with activate := activate }
        let (_, working_dir) :=
          obj.Get Converter_FilePath_FromV8 "workingDirectory" options.working_dir
        let options := { options with working_dir := working_dir }
        (options, args)
      else
        (options, args)
    else
      (options, args)
  let promise := runCallbacks promise (platform url options)
  { promise := promise, args := args, calls := [(url, options)] }

/-- The successive states of a promise on which the completion callbacks
`errors` run in order, the state before the first callback included. -/
def promiseTrace : Promise → List String → List Promise
  | promise, [] => [promise]
  | promise, error :: errors =>
    promise :: promiseTrace (OnOpenExternalFinished promise error) errors

/-- How many times the state changes along a list of successive states. -/
def stateChanges : List Promise → Nat
  | a :: b :: rest => (if a = b then 0 else 1) + stateChanges (b :: rest)
  | _ => 0

/-! ## Theorems -/

/-- A string other than the empty one is not empty. -/
theorem isEmpty_eq_false_of_ne {s : String} (h : s ≠ "") : s.isEmpty = false := by
  rw [Bool.eq_false_iff]
  intro h2
  exact h ((String.isEmpty_iff s).mp h2)

/-- The mode converter on a string other than the four accepted spellings. -/
theorem FromV8_string_rejected (s : String) (out : ShortcutOperation)
    (h0 : s ≠ "") (h1 : s ≠ "create") (h2 : s ≠ "update") (h3 : s ≠ "replace") :
    Converter_ShortcutOperation_FromV8 (.string s) out = (false, out) := by
  simp [Converter_ShortcutOperation_FromV8, Converter_string_FromV8,
    isEmpty_eq_false_of_ne h0, h1, h2, h3]

/-- A string is never taken for the properties object. -/
theorem Dictionary_FromV8_string (s : String) (out : Dictionary) :
    Converter_Dictionary_FromV8 (.string s) out = (false, out) := by
  simp [Converter_Dictionary_FromV8, Value.IsObject]

/-- C1, as stated, fails: the empty string is none of "create", "update",
"replace", yet the mode converter accepts it (as create-always), and a
writeShortcutLink call with mode "" followed by a properties object reaches the
platform. -/
theorem C1_empty_mode_accepted :
    ("" ≠ "create" ∧ "" ≠ "update" ∧ "" ≠ "replace") ∧
    Converter_ShortcutOperation_FromV8 (.string "") .SHORTCUT_UPDATE_EXISTING
      = (true, .SHORTCUT_CREATE_ALWAYS) ∧
    (WriteShortcutLink (fun _ _ _ => true) "a.lnk"
        (Arguments.afterFirst (.string "a.lnk") [.string "", .object []])).ret = true ∧
    (WriteShortcutLink (fun _ _ _ => true) "a.lnk"
        (Arguments.afterFirst (.string "a.lnk") [.string "", .object []])).calls
      = [⟨"a.lnk", ShortcutProperties.new, .SHORTCUT_CREATE_ALWAYS⟩] ∧
    (WriteShortcutLink (fun _ _ _ => true) "a.lnk"
        (Arguments.afterFirst (.string "a.lnk") [.string "", .object []])).args.thrown
      = none := by
  refine ⟨by decide, rfl, rfl, rfl, rfl⟩

/-- C1, amended: for every mode string `s` other than "", "create", "update" and
"replace", the mode converter returns false (leaving its output untouched), and
writeShortcutLink, whatever follows `s`, throws, returns false and makes no
platform call. -/
theorem C1_unknown_mode_rejected (s : String)
    (h0 : s ≠ "") (h1 : s ≠ "create") (h2 : s ≠ "update") (h3 : s ≠ "replace")
    (platform : base.FilePath → ShortcutProperties → ShortcutOperation → Bool)
    (shortcut_path : base.FilePath) (first : Value) (rest : List Value)
    (out : ShortcutOperation) :
    Converter_ShortcutOperation_FromV8 (.string s) out = (false, out) ∧
    (WriteShortcutLink platform shortcut_path
        (Arguments.afterFirst first (.string s :: rest))).ret = false ∧
    (WriteShortcutLink platform shortcut_path
        (Arguments.afterFirst first (.string s :: rest))).calls = [] ∧
    (WriteShortcutLink platform shortcut_path
        (Arguments.afterFirst first (.string s :: rest))).args.thrown
      = some (.conversionFailure 1) := by
  have hop := FromV8_string_rejected s .SHORTCUT_CREATE_ALWAYS h0 h1 h2 h3
  refine ⟨FromV8_string_rejected s out h0 h1 h2 h3, ?_, ?_, ?_⟩ <;>
    simp [WriteShortcutLink, Arguments.GetNext, Arguments.afterFirst, hop,
      Dictionary_FromV8_string, Arguments.ThrowError]

/-- Witness of `C1_unknown_mode_rejected` at the mode string "delete". -/
theorem C1_unknown_mode_rejected_witness :
    Converter_ShortcutOperation_FromV8 (.string "delete") .SHORTCUT_CREATE_ALWAYS
      = (false, .SHORTCUT_CREATE_ALWAYS) ∧
    (WriteShortcutLink (fun _ _ _ => true) "a.lnk"
        (Arguments.afterFirst (.string "a.lnk") (.string "delete" :: [.object []]))).ret
      = false ∧
    (WriteShortcutLink (fun _ _ _ => true) "a.lnk"
        (Arguments.afterFirst (.string "a.lnk") (.string "delete" :: [.object []]))).calls
      = [] ∧
    (WriteShortcutLink (fun _ _ _ => true) "a.lnk"
        (Arguments.afterFirst (.string "a.lnk")
          (.string "delete" :: [.object []]))).args.thrown
      = some (.conversionFailure 1) :=
  C1_unknown_mode_rejected "delete" (by decide) (by decide) (by decide) (by decide)
    (fun _ _ _ => true) "a.lnk" (.string "a.lnk") [.object []] .SHORTCUT_CREATE_ALWAYS

/-- An object is never taken for the mode. -/
theorem FromV8_object_rejected (props : List (String × Value)) (out : ShortcutOperation) :
    Converter_ShortcutOperation_FromV8 (.object props) out = (false, out) := by
  simp [Converter_ShortcutOperation_FromV8, Converter_string_FromV8]

/-- An object is taken for the properties object. -/
theorem Dictionary_FromV8_object (props : List (String × Value)) (out : Dictionary) :
    Converter_Dictionary_FromV8 (.object props) out = (true, ⟨props⟩) := by
  simp [Converter_Dictionary_FromV8, Value.IsObject, Value.IsFunction]

/-- The run of `WriteShortcutLink` when the properties object directly follows
the path. -/
theorem WriteShortcutLink_mode_omitted
    (platform : base.FilePath → ShortcutProperties → ShortcutOperation → Bool)
    (shortcut_path : base.FilePath) (first : Value) (props : List (String × Value))
    (rest : List Value) :
    WriteShortcutLink platform shortcut_path
        (Arguments.afterFirst first (.object props :: rest)) =
      { ret := platform shortcut_path (WriteShortcutLink_properties ⟨props⟩)
                 .SHORTCUT_CREATE_ALWAYS,
        args := { info := first :: .object props :: rest, next := 2,
                  insufficient_arguments := false, thrown := none },
        calls := [⟨shortcut_path, WriteShortcutLink_properties ⟨props⟩,
                   .SHORTCUT_CREATE_ALWAYS⟩] } := by
  simp [WriteShortcutLink, Arguments.GetNext, Arguments.afterFirst, FromV8_object_rejected,
    Dictionary_FromV8_object]

/-- The run of `WriteShortcutLink` when an accepted mode string and then the
properties object follow the path. -/
theorem WriteShortcutLink_mode_given
    (platform : base.FilePath → ShortcutProperties → ShortcutOperation → Bool)
    (shortcut_path : base.FilePath) (first : Value) (m : String) (op : ShortcutOperation)
    (props : List (String × Value)) (rest : List Value)
    (hm : Converter_ShortcutOperation_FromV8 (.string m) .SHORTCUT_CREATE_ALWAYS = (true, op)) :
    WriteShortcutLink platform shortcut_path
        (Arguments.afterFirst first (.string m :: .object props :: rest)) =
      { ret := platform shortcut_path (WriteShortcutLink_properties ⟨props⟩) op,
        args := { info := first :: .string m :: .object props :: rest, next := 3,
                  insufficient_arguments := false, thrown := none },
        calls := [⟨shortcut_path, WriteShortcutLink_properties ⟨props⟩, op⟩] } := by
  simp [WriteShortcutLink, Arguments.GetNext, Arguments.afterFirst, hm,
    Dictionary_FromV8_object]

/-- C2: with the properties object present, writeShortcutLink calls the
platform exactly once, with create-always when the mode is omitted or "create",
update-existing for "update", replace-existing for "replace", throws nothing,
and returns what the platform call returned. -/
theorem C2_write_proceeds_with_mode
    (platform : base.FilePath → ShortcutProperties → ShortcutOperation → Bool)
    (shortcut_path : base.FilePath) (first : Value) (props : List (String × Value))
    (rest : List Value) :
    (∃ properties,
      (WriteShortcutLink platform shortcut_path
        (Arguments.afterFirst first (.object props :: rest))).calls
        = [⟨shortcut_path, properties, .SHORTCUT_CREATE_ALWAYS⟩] ∧
      (WriteShortcutLink platform shortcut_path
        (Arguments.afterFirst first (.object props :: rest))).ret
        = platform shortcut_path properties .SHORTCUT_CREATE_ALWAYS ∧
      (WriteShortcutLink platform shortcut_path
        (Arguments.afterFirst first (.object props :: rest))).args.thrown = none) ∧
    (∃ properties,
      (WriteShortcutLink platform shortcut_path
        (Arguments.afterFirst first (.string "create" :: .object props :: rest))).calls
        = [⟨shortcut_path, properties, .SHORTCUT_CREATE_ALWAYS⟩] ∧
      (WriteShortcutLink platform shortcut_path
        (Arguments.afterFirst first (.string "create" :: .object props :: rest))).ret
        = platform shortcut_path properties .SHORTCUT_CREATE_ALWAYS ∧
      (WriteShortcutLink platform shortcut_path
        (Arguments.afterFirst first
          (.string "create" :: .object props :: rest))).args.thrown = none) ∧
    (∃ properties,
      (WriteShortcutLink platform shortcut_path
        (Arguments.afterFirst first (.string "update" :: .object props :: rest))).calls
        = [⟨shortcut_path, properties, .SHORTCUT_UPDATE_EXISTING⟩] ∧
      (WriteShortcutLink platform shortcut_path
        (Arguments.afterFirst first (.string "update" :: .object props :: rest))).ret
        = platform shortcut_path properties .SHORTCUT_UPDATE_EXISTING ∧
      (WriteShortcutLink platform shortcut_path
        (Arguments.afterFirst first
          (.string "update" :: .object props :: rest))).args.thrown = none) ∧
    (∃ properties,
      (WriteShortcutLink platform shortcut_path
        (Arguments.afterFirst first (.string "replace" :: .object props :: rest))).calls
        = [⟨shortcut_path, properties, .SHORTCUT_REPLACE_EXISTING⟩] ∧
      (WriteShortcutLink platform shortcut_path
        (Arguments.afterFirst first (.string "replace" :: .object props :: rest))).ret
        = platform shortcut_path properties .SHORTCUT_REPLACE_EXISTING ∧
      (WriteShortcutLink platform shortcut_path
        (Arguments.afterFirst first
          (.string "replace" :: .object props :: rest))).args.thrown = none) := by
  refine ⟨⟨WriteShortcutLink_properties ⟨props⟩, ?_, ?_, ?_⟩,
    ⟨WriteShortcutLink_properties ⟨props⟩, ?_, ?_, ?_⟩,
    ⟨WriteShortcutLink_properties ⟨props⟩, ?_, ?_, ?_⟩,
    ⟨WriteShortcutLink_properties ⟨props⟩, ?_, ?_, ?_⟩⟩
  · rw [WriteShortcutLink_mode_omitted]
  · rw [WriteShortcutLink_mode_omitted]
  · rw [WriteShortcutLink_mode_omitted]
  · rw [WriteShortcutLink_mode_given platform shortcut_path first "create"
      .SHORTCUT_CREATE_ALWAYS props rest rfl]
  · rw [WriteShortcutLink_mode_given platform shortcut_path first "create"
      .SHORTCUT_CREATE_ALWAYS props rest rfl]
  · rw [WriteShortcutLink_mode_given platform shortcut_path first "create"
      .SHORTCUT_CREATE_ALWAYS props rest rfl]
  · rw [WriteShortcutLink_mode_given platform shortcut_path first "update"
      .SHORTCUT_UPDATE_EXISTING props rest rfl]
  · rw [WriteShortcutLink_mode_given platform shortcut_path first "update"
      .SHORTCUT_UPDATE_EXISTING props rest rfl]
  · rw [WriteShortcutLink_mode_given platform shortcut_path first "update"
      .SHORTCUT_UPDATE_EXISTING props rest rfl]
  · rw [WriteShortcutLink_mode_given platform shortcut_path first "replace"
      .SHORTCUT_REPLACE_EXISTING props rest rfl]
  · rw [WriteShortcutLink_mode_given platform shortcut_path first "replace"
      .SHORTCUT_REPLACE_EXISTING props rest rfl]
  · rw [WriteShortcutLink_mode_given platform shortcut_path first "replace"
      .SHORTCUT_REPLACE_EXISTING props rest rfl]

/-- C3: when, after the optional mode has been read, there is no argument under
the cursor or the argument under the cursor is not an object, writeShortcutLink
throws (a missing-argument type error, or a conversion type error for the
argument under the cursor), returns false and makes no platform call. -/
theorem C3_missing_properties_fails
    (platform : base.FilePath → ShortcutProperties → ShortcutOperation → Bool)
    (shortcut_path : base.FilePath) (args : Arguments)
    (h : ∀ val,
      (args.GetNext Converter_ShortcutOperation_FromV8 .SHORTCUT_CREATE_ALWAYS).2.2.info.get?
        (args.GetNext Converter_ShortcutOperation_FromV8 .SHORTCUT_CREATE_ALWAYS).2.2.next
        = some val → val.IsObject = false) :
    (WriteShortcutLink platform shortcut_path args).ret = false ∧
    (WriteShortcutLink platform shortcut_path args).calls = [] ∧
    ((WriteShortcutLink platform shortcut_path args).args.thrown
        = some .insufficientArguments ∨
      (WriteShortcutLink platform shortcut_path args).args.thrown
        = some (.conversionFailure
            (args.GetNext Converter_ShortcutOperation_FromV8
              .SHORTCUT_CREATE_ALWAYS).2.2.next)) := by
  generalize hargs1 :
    args.GetNext Converter_ShortcutOperation_FromV8 .SHORTCUT_CREATE_ALWAYS = r1 at h
  obtain ⟨b1, op1, args1⟩ := r1
  simp only at h
  have hgot : (args1.GetNext Converter_Dictionary_FromV8 Dictionary.CreateEmpty).1 = false ∧
      (args1.GetNext Converter_Dictionary_FromV8 Dictionary.CreateEmpty).2.2.next
        = args1.next := by
    unfold Arguments.GetNext
    cases hv : args1.info.get? args1.next with
    | none => simp
    | some val =>
      have hobj := h val hv
      simp [Converter_Dictionary_FromV8, hobj]
  generalize hr2 : args1.GetNext Converter_Dictionary_FromV8 Dictionary.CreateEmpty = r2
    at hgot
  obtain ⟨b2, d2, args2⟩ := r2
  simp only at hgot
  obtain ⟨hb2, hnext⟩ := hgot
  subst hb2
  simp only [WriteShortcutLink, hargs1, hr2, Arguments.ThrowError]
  refine ⟨by simp, by simp, ?_⟩
  cases hins : args2.insufficient_arguments <;> simp [hins, hnext]

/-- Witness of `C3_missing_properties_fails`: a call with the path alone. -/
theorem C3_missing_properties_fails_witness :
    (WriteShortcutLink (fun _ _ _ => true) "a.lnk"
        (Arguments.afterFirst (.string "a.lnk") [])).ret = false ∧
    (WriteShortcutLink (fun _ _ _ => true) "a.lnk"
        (Arguments.afterFirst (.string "a.lnk") [])).calls = [] ∧
    ((WriteShortcutLink (fun _ _ _ => true) "a.lnk"
        (Arguments.afterFirst (.string "a.lnk") [])).args.thrown
        = some .insufficientArguments ∨
      (WriteShortcutLink (fun _ _ _ => true) "a.lnk"
        (Arguments.afterFirst (.string "a.lnk") [])).args.thrown
        = some (.conversionFailure
            ((Arguments.afterFirst (.string "a.lnk") []).GetNext
              Converter_ShortcutOperation_FromV8 .SHORTCUT_CREATE_ALWAYS).2.2.next)) :=
  C3_missing_properties_fails (fun _ _ _ => true) "a.lnk"
    (Arguments.afterFirst (.string "a.lnk") []) (by
      intro val
      simp [Arguments.GetNext, Arguments.afterFirst])

/-- The characters before the first NUL of a list, what follows them, and
where the cut falls. -/
theorem takeWhile_not_nul_split (l : List Char) :
    ∃ tail, l = (l.takeWhile fun c => c != Char.ofNat 0) ++ tail ∧
      (∀ c ∈ (l.takeWhile fun c => c != Char.ofNat 0), c ≠ Char.ofNat 0) ∧
      (tail = [] ∨ ∃ t, tail = Char.ofNat 0 :: t) := by
  induction l with
  | nil => exact ⟨[], rfl, by simp, Or.inl rfl⟩
  | cons a l ih =>
    by_cases ha : a = Char.ofNat 0
    · subst ha
      exact ⟨Char.ofNat 0 :: l, by simp [List.takeWhile], by simp [List.takeWhile],
        Or.inr ⟨l, rfl⟩⟩
    · obtain ⟨tail, h1, h2, h3⟩ := ih
      have hcons : (List.takeWhile (fun c => c != Char.ofNat 0) (a :: l))
          = a :: List.takeWhile (fun c => c != Char.ofNat 0) l := by
        have hne : (a != Char.ofNat 0) = true := by simpa using ha
        simp only [List.takeWhile, hne]
      refine ⟨tail, ?_, ?_, h3⟩
      · rw [hcons, List.cons_append, ← h1]
      · rw [hcons]
        intro c hc
        rcases List.mem_cons.mp hc with hc | hc
        · subst hc
          exact ha
        · exact h2 c hc

/-- A string without NUL is its own C string. -/
theorem c_str_eq_self (s : String) (h : ∀ c ∈ s.data, c ≠ Char.ofNat 0) : c_str s = s := by
  unfold c_str
  have hall : (s.data.takeWhile fun c => c != Char.ofNat 0) = s.data := by
    rw [List.takeWhile_eq_self_iff]
    intro c hc
    simpa using h c hc
  rw [hall]

/-- C4, as stated, fails: the error string made of a NUL followed by `x` is not
empty, yet the pending handle is rejected with the empty message, not with that
string. -/
theorem C4_nul_error_truncated :
    String.mk [Char.ofNat 0, 'x'] ≠ "" ∧
    OnOpenExternalFinished Promise.new (String.mk [Char.ofNat 0, 'x']) = .rejected "" ∧
    OnOpenExternalFinished Promise.new (String.mk [Char.ofNat 0, 'x'])
      ≠ .rejected (String.mk [Char.ofNat 0, 'x']) := by
  decide

/-- C4, amended: run on the pending handle of a call, the completion path
resolves it (with no value) and does not reject it when the error string is
empty; otherwise it rejects it, and does not resolve it, with the error string
cut before its first NUL: the message has no NUL, the error string is the
message followed by nothing or by something that starts with NUL; so an error
string without NUL is the message exactly. -/
theorem C4_completion_rejects_with_c_string (error : String) :
    (error = "" →
      OnOpenExternalFinished Promise.new error = .resolved ∧
      ∀ message, OnOpenExternalFinished Promise.new error ≠ .rejected message) ∧
    (error ≠ "" →
      ∃ message tail,
        OnOpenExternalFinished Promise.new error = .rejected message ∧
        OnOpenExternalFinished Promise.new error ≠ .resolved ∧
        error.data = message.data ++ tail ∧
        (∀ c ∈ message.data, c ≠ Char.ofNat 0) ∧
        (tail = [] ∨ ∃ t, tail = Char.ofNat 0 :: t)) ∧
    (error ≠ "" → (∀ c ∈ error.data, c ≠ Char.ofNat 0) →
      OnOpenExternalFinished Promise.new error = .rejected error) := by
  refine ⟨?_, ?_, ?_⟩
  · intro h
    subst h
    have he : "".isEmpty = true := rfl
    simp [OnOpenExternalFinished, Promise.new, Promise.Resolve, he]
  · intro h
    obtain ⟨tail, h1, h2, h3⟩ := takeWhile_not_nul_split error.data
    refine ⟨c_str error, tail, ?_, ?_, h1, h2, h3⟩ <;>
      simp [OnOpenExternalFinished, Promise.new, Promise.RejectWithErrorMessage,
        isEmpty_eq_false_of_ne h]
  · intro h hnul
    simp [OnOpenExternalFinished, Promise.new, Promise.RejectWithErrorMessage,
      isEmpty_eq_false_of_ne h, c_str_eq_self error hnul]

/-- C5: when the platform's `ResolveShortcutProperties` reports failure,
readShortcutLink throws "Failed to read shortcut link" and returns null, which
is no configuration object at all. -/
theorem C5_read_failure_is_null
    (resolve : base.FilePath → Nat → ShortcutProperties → Bool × ShortcutProperties)
    (args : Arguments) (path : base.FilePath)
    (h : (resolve path ShortcutProperties.PROPERTIES_ALL ShortcutProperties.new).1 = false) :
    (ReadShortcutLink resolve args path).ret = .null ∧
    (ReadShortcutLink resolve args path).args.thrown
      = some (.error "Failed to read shortcut link") ∧
    ∀ props, (ReadShortcutLink resolve args path).ret ≠ .object props := by
  generalize hr : resolve path ShortcutProperties.PROPERTIES_ALL ShortcutProperties.new = r
    at h
  obtain ⟨ok, properties⟩ := r
  simp only at h
  subst h
  simp [ReadShortcutLink, hr, Arguments.ThrowErrorMessage]

/-- Witness of `C5_read_failure_is_null`: a platform that fails after having
written a target into the record. -/
theorem C5_read_failure_is_null_witness :
    (ReadShortcutLink (fun _ _ p => (false, p.set_target "x.exe"))
        (Arguments.afterFirst (.string "a.lnk") []) "a.lnk").ret = .null ∧
    (ReadShortcutLink (fun _ _ p => (false, p.set_target "x.exe"))
        (Arguments.afterFirst (.string "a.lnk") []) "a.lnk").args.thrown
      = some (.error "Failed to read shortcut link") ∧
    ∀ props, (ReadShortcutLink (fun _ _ p => (false, p.set_target "x.exe"))
        (Arguments.afterFirst (.string "a.lnk") []) "a.lnk").ret ≠ .object props :=
  C5_read_failure_is_null (fun _ _ p => (false, p.set_target "x.exe"))
    (Arguments.afterFirst (.string "a.lnk") []) "a.lnk" rfl

/-- C7: called with the URL alone, openExternalSync and openExternal throw
nothing and hand the platform the default-constructed options, exactly once;
the synchronous call returns the platform's result. -/
theorem C7_url_only_uses_default_options
    (platformSync : String → OpenExternalOptions → Bool)
    (platformAsync : String → OpenExternalOptions → List String)
    (url : String) (first : Value) :
    (OpenExternalSync platformSync url (Arguments.afterFirst first [])).calls
      = [(url, OpenExternalOptions.new)] ∧
    (OpenExternalSync platformSync url (Arguments.afterFirst first [])).ret
      = platformSync url OpenExternalOptions.new ∧
    (OpenExternalSync platformSync url (Arguments.afterFirst first [])).args.thrown = none ∧
    (OpenExternal platformAsync url (Arguments.afterFirst first [])).calls
      = [(url, OpenExternalOptions.new)] ∧
    (OpenExternal platformAsync url (Arguments.afterFirst first [])).args.thrown = none := by
  simp [OpenExternalSync, OpenExternal, Arguments.afterFirst, Arguments.Length]

/-- C8: when the platform does not run the completion callback, the handle
returned by openExternal is pending when the call returns, and with no callback
run afterwards it is still pending. -/
theorem C8_no_callback_stays_pending
    (platform : String → OpenExternalOptions → List String)
    (url : String) (args : Arguments)
    (h : ∀ options, platform url options = []) :
    (OpenExternal platform url args).promise = .pending ∧
    (OpenExternal platform url args).promise.isSettled = false ∧
    runCallbacks (OpenExternal platform url args).promise [] = .pending := by
  have hp : (OpenExternal platform url args).promise = .pending := by
    simp [OpenExternal, h, runCallbacks, Promise.new]
  simp [hp, runCallbacks, Promise.isSettled]

/-- Witness of `C8_no_callback_stays_pending`: a platform that never calls back,
on a call with a URL and an options object. -/
theorem C8_no_callback_stays_pending_witness :
    (OpenExternal (fun _ _ => []) "https://example.org"
        (Arguments.afterFirst (.string "https://example.org")
          [.object [("activate", .bool false)]])).promise = .pending ∧
    (OpenExternal (fun _ _ => []) "https://example.org"
        (Arguments.afterFirst (.string "https://example.org")
          [.object [("activate", .bool false)]])).promise.isSettled = false ∧
    runCallbacks (OpenExternal (fun _ _ => []) "https://example.org"
        (Arguments.afterFirst (.string "https://example.org")
          [.object [("activate", .bool false)]])).promise [] = .pending :=
  C8_no_callback_stays_pending (fun _ _ => []) "https://example.org"
    (Arguments.afterFirst (.string "https://example.org")
      [.object [("activate", .bool false)]]) (fun _ => rfl)

/-- The completion path always leaves the handle settled. -/
theorem OnOpenExternalFinished_isSettled (promise : Promise) (error : String) :
    (OnOpenExternalFinished promise error).isSettled = true := by
  cases promise <;> cases h : error.isEmpty <;>
    simp [OnOpenExternalFinished, h, Promise.Resolve, Promise.RejectWithErrorMessage,
      Promise.isSettled]

/-- The completion path leaves a settled handle as it is. -/
theorem OnOpenExternalFinished_of_isSettled (promise : Promise) (error : String)
    (h : promise.isSettled = true) : OnOpenExternalFinished promise error = promise := by
  cases promise <;> cases he : error.isEmpty <;>
    simp_all [OnOpenExternalFinished, Promise.Resolve, Promise.RejectWithErrorMessage,
      Promise.isSettled]

/-- Callbacks run on a settled handle leave it as it is. -/
theorem runCallbacks_of_isSettled (promise : Promise) (errors : List String)
    (h : promise.isSettled = true) : runCallbacks promise errors = promise := by
  induction errors with
  | nil => rfl
  | cons e es ih =>
    simp only [runCallbacks, List.foldl_cons] at ih ⊢
    rw [OnOpenExternalFinished_of_isSettled promise e h]
    exact ih

/-- Running two batches of callbacks in a row is running their concatenation. -/
theorem runCallbacks_append (promise : Promise) (xs ys : List String) :
    runCallbacks promise (xs ++ ys) = runCallbacks (runCallbacks promise xs) ys := by
  simp [runCallbacks, List.foldl_append]

/-- State changes of a trace with one more state in front. -/
theorem stateChanges_cons_trace (a b : Promise) (errors : List String) :
    stateChanges (a :: promiseTrace b errors)
      = (if a = b then 0 else 1) + stateChanges (promiseTrace b errors) := by
  cases errors <;> simp [promiseTrace, stateChanges]

/-- A settled handle never changes state again. -/
theorem stateChanges_of_isSettled (promise : Promise) (errors : List String)
    (h : promise.isSettled = true) : stateChanges (promiseTrace promise errors) = 0 := by
  induction errors with
  | nil => simp [promiseTrace, stateChanges]
  | cons e es ih =>
    rw [promiseTrace, stateChanges_cons_trace, OnOpenExternalFinished_of_isSettled promise e h]
    simp [ih]

/-- Along any sequence of callbacks a handle changes state at most once. -/
theorem stateChanges_le_one (promise : Promise) (errors : List String) :
    stateChanges (promiseTrace promise errors) ≤ 1 := by
  cases errors with
  | nil => simp [promiseTrace, stateChanges]
  | cons e es =>
    rw [promiseTrace, stateChanges_cons_trace,
      stateChanges_of_isSettled _ es (OnOpenExternalFinished_isSettled promise e)]
    split <;> simp

/-- C9: over any sequence of completion callbacks, those the platform runs
before openExternal returns followed by those it runs later, the handle's state
changes at most once; the first callback settles it, and after all callbacks it
is still as the first one left it. -/
theorem C9_handle_settles_at_most_once
    (platform : String → OpenExternalOptions → List String)
    (url : String) (args : Arguments) (later : List String) :
    ∃ options,
      (OpenExternal platform url args).calls = [(url, options)] ∧
      (OpenExternal platform url args).promise
        = runCallbacks Promise.new (platform url options) ∧
      runCallbacks (OpenExternal platform url args).promise later
        = runCallbacks Promise.new (platform url options ++ later) ∧
      stateChanges (promiseTrace Promise.new (platform url options ++ later)) ≤ 1 ∧
      ∀ error errors, platform url options ++ later = error :: errors →
        (OnOpenExternalFinished Promise.new error).isSettled = true ∧
        runCallbacks Promise.new (platform url options ++ later)
          = OnOpenExternalFinished Promise.new error := by
  refine ⟨((OpenExternal platform url args).calls.map Prod.snd).headD OpenExternalOptions.new,
    ?_, ?_, ?_, stateChanges_le_one _ _, ?_⟩
  · simp [OpenExternal]
  · simp [OpenExternal]
  · rw [runCallbacks_append]
    simp [OpenExternal]
  · intro error errors h
    refine ⟨OnOpenExternalFinished_isSettled _ _, ?_⟩
    rw [h]
    simp only [runCallbacks, List.foldl_cons]
    exact runCallbacks_of_isSettled _ errors (OnOpenExternalFinished_isSettled _ _)

/-- Reading a key the object does not have fails and leaves `out` as it was. -/
theorem Dictionary_Get_of_lookup_none {α : Type} (conv : FromV8 α) (d : Dictionary)
    (key : String) (out : α) (h : d.props.lookup key = none) :
    d.Get conv key out = (false, out) := by
  simp [Dictionary.Get, h]

/-- The six property bits of an `options` word assembled from six flags. -/
theorem options_bits (b1 b2 b3 b4 b5 b6 : Bool) :
    (((if b1 then 1 else 0) ||| (if b2 then 2 else 0) ||| (if b3 then 4 else 0) |||
        (if b4 then 8 else 0) ||| (if b5 then 16 else 0) ||| (if b6 then 32 else 0))
        &&& 1 != 0) = b1 ∧
    (((if b1 then 1 else 0) ||| (if b2 then 2 else 0) ||| (if b3 then 4 else 0) |||
        (if b4 then 8 else 0) ||| (if b5 then 16 else 0) ||| (if b6 then 32 else 0))
        &&& 2 != 0) = b2 ∧
    (((if b1 then 1 else 0) ||| (if b2 then 2 else 0) ||| (if b3 then 4 else 0) |||
        (if b4 then 8 else 0) ||| (if b5 then 16 else 0) ||| (if b6 then 32 else 0))
        &&& 4 != 0) = b3 ∧
    (((if b1 then 1 else 0) ||| (if b2 then 2 else 0) ||| (if b3 then 4 else 0) |||
        (if b4 then 8 else 0) ||| (if b5 then 16 else 0) ||| (if b6 then 32 else 0))
        &&& 8 != 0) = b4 ∧
    (((if b1 then 1 else 0) ||| (if b2 then 2 else 0) ||| (if b3 then 4 else 0) |||
        (if b4 then 8 else 0) ||| (if b5 then 16 else 0) ||| (if b6 then 32 else 0))
        &&& 16 != 0) = b5 ∧
    (((if b1 then 1 else 0) ||| (if b2 then 2 else 0) ||| (if b3 then 4 else 0) |||
        (if b4 then 8 else 0) ||| (if b5 then 16 else 0) ||| (if b6 then 32 else 0))
        &&& 32 != 0) = b6 := by
  cases b1 <;> cases b2 <;> cases b3 <;> cases b4 <;> cases b5 <;> cases b6 <;> decide

set_option maxHeartbeats 4000000 in
/-- The record built by the property block, field by field, from the results of
its seven reads. -/
theorem WriteShortcutLink_properties_of_gets (d : Dictionary)
    (b1 b2 b3 b4 b5 b6 b7 : Bool) (p1 p2 p5 : base.FilePath) (s3 s4 s7 : String) (i6 : Int)
    (h1 : d.Get Converter_FilePath_FromV8 "target" "" = (b1, p1))
    (h2 : d.Get Converter_FilePath_FromV8 "cwd" p1 = (b2, p2))
    (h3 : d.Get Converter_string16_FromV8 "args" "" = (b3, s3))
    (h4 : d.Get Converter_string16_FromV8 "description" s3 = (b4, s4))
    (h5 : d.Get Converter_FilePath_FromV8 "icon" p2 = (b5, p5))
    (h6 : d.Get Converter_int_FromV8 "iconIndex" 0 = (b6, i6))
    (h7 : d.Get Converter_string16_FromV8 "appUserModelId" s4 = (b7, s7)) :
    WriteShortcutLink_properties d =
      { target := if b1 then p1 else "",
        working_dir := if b2 then p2 else "",
        arguments := if b3 then s3 else "",
        description := if b4 then s4 else "",
        icon := if b5 && b6 then p5 else "",
        icon_index := if b5 && b6 then i6 else -1,
        app_id := if b7 then s7 else "",
        options := (if b1 then 1 else 0) ||| (if b2 then 2 else 0) |||
          (if b3 then 4 else 0) ||| (if b4 then 8 else 0) |||
          (if b5 && b6 then 16 else 0) ||| (if b7 then 32 else 0) } := by
  simp only [WriteShortcutLink_properties, h1, h2, h3, h4, h5, h6, h7]
  cases b1 <;> cases b2 <;> cases b3 <;> cases b4 <;> cases b5 <;> cases b6 <;> cases b7 <;>
    simp +decide [ShortcutProperties.new, ShortcutProperties.set_target,
      ShortcutProperties.set_working_dir, ShortcutProperties.set_arguments,
      ShortcutProperties.set_description, ShortcutProperties.set_icon,
      ShortcutProperties.set_app_id, ShortcutProperties.PROPERTIES_TARGET,
      ShortcutProperties.PROPERTIES_WORKING_DIR, ShortcutProperties.PROPERTIES_ARGUMENTS,
      ShortcutProperties.PROPERTIES_DESCRIPTION, ShortcutProperties.PROPERTIES_ICON,
      ShortcutProperties.PROPERTIES_APP_ID]

/-- Whether reading a path succeeds does not depend on what `out` holds. -/
theorem Dictionary_Get_FilePath_fst (d : Dictionary) (key : String) (out out' : base.FilePath) :
    (d.Get Converter_FilePath_FromV8 key out).1
      = (d.Get Converter_FilePath_FromV8 key out').1 := by
  unfold Dictionary.Get
  cases d.props.lookup key with
  | none => rfl
  | some val => cases val <;> rfl

/-- Removing the two icon keys leaves the lookup of every other key as it was. -/
theorem lookup_filter_icon_keys (props : List (String × Value)) (key : String)
    (h1 : key ≠ "icon") (h2 : key ≠ "iconIndex") :
    (props.filter fun kv => kv.1 != "icon" && kv.1 != "iconIndex").lookup key
      = props.lookup key := by
  induction props with
  | nil => rfl
  | cons kv rest ih =>
    obtain ⟨k, v⟩ := kv
    by_cases hk : key = k
    · subst hk
      rw [List.filter_cons_of_pos (by simp [h1, h2])]
      simp [List.lookup]
    · have hk' : (key == k) = false := by simpa using hk
      by_cases hf : (k != "icon" && k != "iconIndex") = true
      · simp [List.filter, List.lookup, hf, hk', ih]
      · simp only [Bool.not_eq_true] at hf
        simp [List.filter, List.lookup, hf, hk', ih]

/-- The properties object without its two icon keys has no `icon`. -/
theorem lookup_filter_icon_none (props : List (String × Value)) :
    (props.filter fun kv => kv.1 != "icon" && kv.1 != "iconIndex").lookup "icon" = none := by
  induction props with
  | nil => rfl
  | cons kv rest ih =>
    obtain ⟨k, v⟩ := kv
    by_cases hk : k = "icon"
    · subst hk
      simp [List.filter, ih]
    · have hk' : ("icon" == k) = false := by
        simpa using fun h => hk h.symm
      by_cases hf : (k != "icon" && k != "iconIndex") = true
      · simp [List.filter, List.lookup, hf, hk', ih]
      · simp only [Bool.not_eq_true] at hf
        simp [List.filter, hf, ih]

/-- Reads of the other keys do not see the removal of the two icon keys. -/
theorem Dictionary_Get_filter_icon_keys {α : Type} (conv : FromV8 α)
    (props : List (String × Value)) (key : String) (out : α)
    (h1 : key ≠ "icon") (h2 : key ≠ "iconIndex") :
    Dictionary.Get conv ⟨props.filter fun kv => kv.1 != "icon" && kv.1 != "iconIndex"⟩ key out
      = Dictionary.Get conv ⟨props⟩ key out := by
  simp [Dictionary.Get, lookup_filter_icon_keys props key h1 h2]

/-- The run of `WriteShortcutLink` when the properties object follows the path,
directly or after one of the three mode strings. -/
theorem WriteShortcutLink_with_mode
    (platform : base.FilePath → ShortcutProperties → ShortcutOperation → Bool)
    (shortcut_path : base.FilePath) (first : Value) (mode : List Value)
    (props : List (String × Value)) (rest : List Value)
    (hmode : mode = [] ∨ mode = [.string "create"] ∨ mode = [.string "update"] ∨
      mode = [.string "replace"]) :
    ∃ op,
      (WriteShortcutLink platform shortcut_path
        (Arguments.afterFirst first (mode ++ .object props :: rest))).calls
        = [⟨shortcut_path, WriteShortcutLink_properties ⟨props⟩, op⟩] ∧
      (WriteShortcutLink platform shortcut_path
        (Arguments.afterFirst first (mode ++ .object props :: rest))).args.thrown = none ∧
      (WriteShortcutLink platform shortcut_path
        (Arguments.afterFirst first (mode ++ .object props :: rest))).ret
        = platform shortcut_path (WriteShortcutLink_properties ⟨props⟩) op := by
  rcases hmode with h | h | h | h <;> subst h
  · exact ⟨.SHORTCUT_CREATE_ALWAYS, by
      simp only [List.nil_append]; rw [WriteShortcutLink_mode_omitted]; exact ⟨rfl, rfl, rfl⟩⟩
  · exact ⟨.SHORTCUT_CREATE_ALWAYS, by
      simp only [List.singleton_append]
      rw [WriteShortcutLink_mode_given platform shortcut_path first "create"
        .SHORTCUT_CREATE_ALWAYS props rest rfl]
      exact ⟨rfl, rfl, rfl⟩⟩
  · exact ⟨.SHORTCUT_UPDATE_EXISTING, by
      simp only [List.singleton_append]
      rw [WriteShortcutLink_mode_given platform shortcut_path first "update"
        .SHORTCUT_UPDATE_EXISTING props rest rfl]
      exact ⟨rfl, rfl, rfl⟩⟩
  · exact ⟨.SHORTCUT_REPLACE_EXISTING, by
      simp only [List.singleton_append]
      rw [WriteShortcutLink_mode_given platform shortcut_path first "replace"
        .SHORTCUT_REPLACE_EXISTING props rest rfl]
      exact ⟨rfl, rfl, rfl⟩⟩

/-- The record built from a properties object that has the key `target` only,
holding a string. -/
theorem WriteShortcutLink_properties_target_only (target : String) :
    WriteShortcutLink_properties ⟨[("target", .string target)]⟩
      = ShortcutProperties.new.set_target target := by
  rw [WriteShortcutLink_properties_of_gets ⟨[("target", .string target)]⟩
    true false false false false false false target target target "" "" "" 0
    rfl rfl rfl rfl rfl rfl rfl]
  simp +decide [ShortcutProperties.new, ShortcutProperties.set_target,
    ShortcutProperties.PROPERTIES_TARGET]

/-- Frame of the property block: a property whose key the properties object
does not have keeps its default-constructed content and is not marked as set
(for the icon: when either of its two keys is missing). -/
theorem WriteShortcutLink_properties_frame (d : Dictionary) :
    (d.props.lookup "target" = none →
      (WriteShortcutLink_properties d).target = ShortcutProperties.new.target ∧
      (WriteShortcutLink_properties d).isSet ShortcutProperties.PROPERTIES_TARGET = false) ∧
    (d.props.lookup "cwd" = none →
      (WriteShortcutLink_properties d).working_dir = ShortcutProperties.new.working_dir ∧
      (WriteShortcutLink_properties d).isSet ShortcutProperties.PROPERTIES_WORKING_DIR
        = false) ∧
    (d.props.lookup "args" = none →
      (WriteShortcutLink_properties d).arguments = ShortcutProperties.new.arguments ∧
      (WriteShortcutLink_properties d).isSet ShortcutProperties.PROPERTIES_ARGUMENTS
        = false) ∧
    (d.props.lookup "description" = none →
      (WriteShortcutLink_properties d).description = ShortcutProperties.new.description ∧
      (WriteShortcutLink_properties d).isSet ShortcutProperties.PROPERTIES_DESCRIPTION
        = false) ∧
    (d.props.lookup "icon" = none ∨ d.props.lookup "iconIndex" = none →
      (WriteShortcutLink_properties d).icon = ShortcutProperties.new.icon ∧
      (WriteShortcutLink_properties d).icon_index = ShortcutProperties.new.icon_index ∧
      (WriteShortcutLink_properties d).isSet ShortcutProperties.PROPERTIES_ICON = false) ∧
    (d.props.lookup "appUserModelId" = none →
      (WriteShortcutLink_properties d).app_id = ShortcutProperties.new.app_id ∧
      (WriteShortcutLink_properties d).isSet ShortcutProperties.PROPERTIES_APP_ID
        = false) := by
  rcases h1 : d.Get Converter_FilePath_FromV8 "target" "" with ⟨b1, p1⟩
  rcases h2 : d.Get Converter_FilePath_FromV8 "cwd" p1 with ⟨b2, p2⟩
  rcases h3 : d.Get Converter_string16_FromV8 "args" "" with ⟨b3, s3⟩
  rcases h4 : d.Get Converter_string16_FromV8 "description" s3 with ⟨b4, s4⟩
  rcases h5 : d.Get Converter_FilePath_FromV8 "icon" p2 with ⟨b5, p5⟩
  rcases h6 : d.Get Converter_int_FromV8 "iconIndex" 0 with ⟨b6, i6⟩
  rcases h7 : d.Get Converter_string16_FromV8 "appUserModelId" s4 with ⟨b7, s7⟩
  rw [WriteShortcutLink_properties_of_gets d b1 b2 b3 b4 b5 b6 b7 p1 p2 p5 s3 s4 s7 i6
    h1 h2 h3 h4 h5 h6 h7]
  have hbits := options_bits b1 b2 b3 b4 (b5 && b6) b7
  simp only [ShortcutProperties.isSet, ShortcutProperties.PROPERTIES_TARGET,
    ShortcutProperties.PROPERTIES_WORKING_DIR, ShortcutProperties.PROPERTIES_ARGUMENTS,
    ShortcutProperties.PROPERTIES_DESCRIPTION, ShortcutProperties.PROPERTIES_ICON,
    ShortcutProperties.PROPERTIES_APP_ID, ShortcutProperties.new]
  rw [hbits.1, hbits.2.1, hbits.2.2.1, hbits.2.2.2.1, hbits.2.2.2.2.1, hbits.2.2.2.2.2]
  refine ⟨?_, ?_, ?_, ?_, ?_, ?_⟩
  · intro h
    rw [Dictionary_Get_of_lookup_none _ _ _ _ h] at h1
    simp [← (Prod.mk.inj h1).1]
  · intro h
    rw [Dictionary_Get_of_lookup_none _ _ _ _ h] at h2
    simp [← (Prod.mk.inj h2).1]
  · intro h
    rw [Dictionary_Get_of_lookup_none _ _ _ _ h] at h3
    simp [← (Prod.mk.inj h3).1]
  · intro h
    rw [Dictionary_Get_of_lookup_none _ _ _ _ h] at h4
    simp [← (Prod.mk.inj h4).1]
  · intro h
    rcases h with h | h
    · rw [Dictionary_Get_of_lookup_none _ _ _ _ h] at h5
      simp [← (Prod.mk.inj h5).1]
    · rw [Dictionary_Get_of_lookup_none _ _ _ _ h] at h6
      simp [← (Prod.mk.inj h6).1]
  · intro h
    rw [Dictionary_Get_of_lookup_none _ _ _ _ h] at h7
    simp [← (Prod.mk.inj h7).1]

/-- The record built from a properties object in which the icon path or the
icon index is not usable is the record built from the same object without the
two icon keys, and its icon is the default one. -/
theorem WriteShortcutLink_properties_icon_unusable (props : List (String × Value))
    (h : ((Dictionary.Get Converter_FilePath_FromV8 ⟨props⟩ "icon" "").1 &&
      (Dictionary.Get Converter_int_FromV8 ⟨props⟩ "iconIndex" 0).1) = false) :
    (WriteShortcutLink_properties ⟨props⟩).icon = ShortcutProperties.new.icon ∧
    (WriteShortcutLink_properties ⟨props⟩).icon_index = ShortcutProperties.new.icon_index ∧
    WriteShortcutLink_properties ⟨props⟩
      = WriteShortcutLink_properties
          ⟨props.filter fun kv => kv.1 != "icon" && kv.1 != "iconIndex"⟩ := by
  rcases h1 : Dictionary.Get Converter_FilePath_FromV8 ⟨props⟩ "target" "" with ⟨b1, p1⟩
  rcases h2 : Dictionary.Get Converter_FilePath_FromV8 ⟨props⟩ "cwd" p1 with ⟨b2, p2⟩
  rcases h3 : Dictionary.Get Converter_string16_FromV8 ⟨props⟩ "args" "" with ⟨b3, s3⟩
  rcases h4 : Dictionary.Get Converter_string16_FromV8 ⟨props⟩ "description" s3
    with ⟨b4, s4⟩
  rcases h5 : Dictionary.Get Converter_FilePath_FromV8 ⟨props⟩ "icon" p2 with ⟨b5, p5⟩
  rcases h6 : Dictionary.Get Converter_int_FromV8 ⟨props⟩ "iconIndex" 0 with ⟨b6, i6⟩
  rcases h7 : Dictionary.Get Converter_string16_FromV8 ⟨props⟩ "appUserModelId" s4
    with ⟨b7, s7⟩
  rcases h6' : Dictionary.Get Converter_int_FromV8
    ⟨props.filter fun kv => kv.1 != "icon" && kv.1 != "iconIndex"⟩ "iconIndex" 0
    with ⟨b6', i6'⟩
  have hb : (b5 && b6) = false := by
    rw [Dictionary_Get_FilePath_fst ⟨props⟩ "icon" "" p2, h5, h6] at h
    exact h
  rw [WriteShortcutLink_properties_of_gets ⟨props⟩ b1 b2 b3 b4 b5 b6 b7 p1 p2 p5 s3 s4 s7 i6
    h1 h2 h3 h4 h5 h6 h7]
  rw [WriteShortcutLink_properties_of_gets
    ⟨props.filter fun kv => kv.1 != "icon" && kv.1 != "iconIndex"⟩
    b1 b2 b3 b4 false b6' b7 p1 p2 p2 s3 s4 s7 i6'
    (by rw [Dictionary_Get_filter_icon_keys _ _ _ _ (by decide) (by decide)]; exact h1)
    (by rw [Dictionary_Get_filter_icon_keys _ _ _ _ (by decide) (by decide)]; exact h2)
    (by rw [Dictionary_Get_filter_icon_keys _ _ _ _ (by decide) (by decide)]; exact h3)
    (by rw [Dictionary_Get_filter_icon_keys _ _ _ _ (by decide) (by decide)]; exact h4)
    (Dictionary_Get_of_lookup_none _ _ _ _ (lookup_filter_icon_none props))
    h6'
    (by rw [Dictionary_Get_filter_icon_keys _ _ _ _ (by decide) (by decide)]; exact h7)]
  simp [hb, ShortcutProperties.new]

/-- The record built from a properties object whose `icon` is a string and
whose `iconIndex` is a 32-bit integer carries that icon and is marked. -/
theorem WriteShortcutLink_properties_icon_usable (props : List (String × Value))
    (icon : String) (index : Int)
    (hicon : props.lookup "icon" = some (.string icon))
    (hindex : props.lookup "iconIndex" = some (.int index))
    (hlo : -2147483648 ≤ index) (hhi : index ≤ 2147483647) :
    (WriteShortcutLink_properties ⟨props⟩).icon = icon ∧
    (WriteShortcutLink_properties ⟨props⟩).icon_index = index := by
  rcases h1 : Dictionary.Get Converter_FilePath_FromV8 ⟨props⟩ "target" "" with ⟨b1, p1⟩
  rcases h2 : Dictionary.Get Converter_FilePath_FromV8 ⟨props⟩ "cwd" p1 with ⟨b2, p2⟩
  rcases h3 : Dictionary.Get Converter_string16_FromV8 ⟨props⟩ "args" "" with ⟨b3, s3⟩
  rcases h4 : Dictionary.Get Converter_string16_FromV8 ⟨props⟩ "description" s3
    with ⟨b4, s4⟩
  rcases h7 : Dictionary.Get Converter_string16_FromV8 ⟨props⟩ "appUserModelId" s4
    with ⟨b7, s7⟩
  have h5 : Dictionary.Get Converter_FilePath_FromV8 ⟨props⟩ "icon" p2 = (true, icon) := by
    simp [Dictionary.Get, hicon, Converter_FilePath_FromV8]
  have h6 : Dictionary.Get Converter_int_FromV8 ⟨props⟩ "iconIndex" 0 = (true, index) := by
    simp [Dictionary.Get, hindex, Converter_int_FromV8, hlo, hhi]
  rw [WriteShortcutLink_properties_of_gets ⟨props⟩ b1 b2 b3 b4 true true b7 p1 p2 icon s3 s4 s7
    index h1 h2 h3 h4 h5 h6 h7]
  simp

/-- The icon bit of the record built by the property block. -/
theorem WriteShortcutLink_properties_icon_bit (props : List (String × Value)) :
    (WriteShortcutLink_properties ⟨props⟩).isSet ShortcutProperties.PROPERTIES_ICON
      = ((Dictionary.Get Converter_FilePath_FromV8 ⟨props⟩ "icon" "").1 &&
          (Dictionary.Get Converter_int_FromV8 ⟨props⟩ "iconIndex" 0).1) := by
  rcases h1 : Dictionary.Get Converter_FilePath_FromV8 ⟨props⟩ "target" "" with ⟨b1, p1⟩
  rcases h2 : Dictionary.Get Converter_FilePath_FromV8 ⟨props⟩ "cwd" p1 with ⟨b2, p2⟩
  rcases h3 : Dictionary.Get Converter_string16_FromV8 ⟨props⟩ "args" "" with ⟨b3, s3⟩
  rcases h4 : Dictionary.Get Converter_string16_FromV8 ⟨props⟩ "description" s3
    with ⟨b4, s4⟩
  rcases h5 : Dictionary.Get Converter_FilePath_FromV8 ⟨props⟩ "icon" p2 with ⟨b5, p5⟩
  rcases h6 : Dictionary.Get Converter_int_FromV8 ⟨props⟩ "iconIndex" 0 with ⟨b6, i6⟩
  rcases h7 : Dictionary.Get Converter_string16_FromV8 ⟨props⟩ "appUserModelId" s4
    with ⟨b7, s7⟩
  rw [Dictionary_Get_FilePath_fst ⟨props⟩ "icon" "" p2, h5,
    WriteShortcutLink_properties_of_gets ⟨props⟩ b1 b2 b3 b4 b5 b6 b7 p1 p2 p5 s3 s4 s7 i6
      h1 h2 h3 h4 h5 h6 h7]
  exact (options_bits b1 b2 b3 b4 (b5 && b6) b7).2.2.2.2.1

/-- C6: a properties object that supplies `target` only (as a string) hands the
platform the default-constructed record with the target set to it and nothing
else set; and for any properties object, a property whose key is not supplied
keeps its default-constructed content and is not marked as set in the record
handed to the platform (the icon when either `icon` or `iconIndex` is not
supplied). -/
theorem C6_only_supplied_properties_are_set
    (platform : base.FilePath → ShortcutProperties → ShortcutOperation → Bool)
    (shortcut_path : base.FilePath) (first : Value) (mode : List Value) (rest : List Value)
    (hmode : mode = [] ∨ mode = [.string "create"] ∨ mode = [.string "update"] ∨
      mode = [.string "replace"]) :
    (∀ target : String, ∃ op,
      (WriteShortcutLink platform shortcut_path
        (Arguments.afterFirst first
          (mode ++ .object [("target", .string target)] :: rest))).calls
        = [⟨shortcut_path,
            { ShortcutProperties.new with
              target := target, options := ShortcutProperties.PROPERTIES_TARGET },
            op⟩]) ∧
    (∀ props : List (String × Value), ∃ op properties,
      (WriteShortcutLink platform shortcut_path
        (Arguments.afterFirst first (mode ++ .object props :: rest))).calls
        = [⟨shortcut_path, properties, op⟩] ∧
      (List.lookup "target" props = none →
        properties.target = ShortcutProperties.new.target ∧
        properties.isSet ShortcutProperties.PROPERTIES_TARGET = false) ∧
      (List.lookup "cwd" props = none →
        properties.working_dir = ShortcutProperties.new.working_dir ∧
        properties.isSet ShortcutProperties.PROPERTIES_WORKING_DIR = false) ∧
      (List.lookup "args" props = none →
        properties.arguments = ShortcutProperties.new.arguments ∧
        properties.isSet ShortcutProperties.PROPERTIES_ARGUMENTS = false) ∧
      (List.lookup "description" props = none →
        properties.description = ShortcutProperties.new.description ∧
        properties.isSet ShortcutProperties.PROPERTIES_DESCRIPTION = false) ∧
      (List.lookup "icon" props = none ∨ List.lookup "iconIndex" props = none →
        properties.icon = ShortcutProperties.new.icon ∧
        properties.icon_index = ShortcutProperties.new.icon_index ∧
        properties.isSet ShortcutProperties.PROPERTIES_ICON = false) ∧
      (List.lookup "appUserModelId" props = none →
        properties.app_id = ShortcutProperties.new.app_id ∧
        properties.isSet ShortcutProperties.PROPERTIES_APP_ID = false)) := by
  constructor
  · intro target
    obtain ⟨op, hcalls, -, -⟩ := WriteShortcutLink_with_mode platform shortcut_path first mode
      [("target", .string target)] rest hmode
    refine ⟨op, ?_⟩
    rw [hcalls, WriteShortcutLink_properties_target_only]
    simp +decide [ShortcutProperties.new, ShortcutProperties.set_target,
      ShortcutProperties.PROPERTIES_TARGET]
  · intro props
    obtain ⟨op, hcalls, -, -⟩ := WriteShortcutLink_with_mode platform shortcut_path first mode
      props rest hmode
    exact ⟨op, WriteShortcutLink_properties ⟨props⟩, hcalls,
      WriteShortcutLink_properties_frame ⟨props⟩⟩

/-- Witness of `C6_only_supplied_properties_are_set`: mode "update". -/
theorem C6_only_supplied_properties_are_set_witness :
    (∀ target : String, ∃ op,
      (WriteShortcutLink (fun _ _ _ => true) "a.lnk"
        (Arguments.afterFirst (.string "a.lnk")
          ([.string "update"] ++ .object [("target", .string target)] :: []))).calls
        = [⟨"a.lnk",
            { ShortcutProperties.new with
              target := target, options := ShortcutProperties.PROPERTIES_TARGET },
            op⟩]) ∧
    (∀ props : List (String × Value), ∃ op properties,
      (WriteShortcutLink (fun _ _ _ => true) "a.lnk"
        (Arguments.afterFirst (.string "a.lnk") ([.string "update"] ++ .object props :: []))).calls
        = [⟨"a.lnk", properties, op⟩] ∧
      (List.lookup "target" props = none →
        properties.target = ShortcutProperties.new.target ∧
        properties.isSet ShortcutProperties.PROPERTIES_TARGET = false) ∧
      (List.lookup "cwd" props = none →
        properties.working_dir = ShortcutProperties.new.working_dir ∧
        properties.isSet ShortcutProperties.PROPERTIES_WORKING_DIR = false) ∧
      (List.lookup "args" props = none →
        properties.arguments = ShortcutProperties.new.arguments ∧
        properties.isSet ShortcutProperties.PROPERTIES_ARGUMENTS = false) ∧
      (List.lookup "description" props = none →
        properties.description = ShortcutProperties.new.description ∧
        properties.isSet ShortcutProperties.PROPERTIES_DESCRIPTION = false) ∧
      (List.lookup "icon" props = none ∨ List.lookup "iconIndex" props = none →
        properties.icon = ShortcutProperties.new.icon ∧
        properties.icon_index = ShortcutProperties.new.icon_index ∧
        properties.isSet ShortcutProperties.PROPERTIES_ICON = false) ∧
      (List.lookup "appUserModelId" props = none →
        properties.app_id = ShortcutProperties.new.app_id ∧
        properties.isSet ShortcutProperties.PROPERTIES_APP_ID = false)) :=
  C6_only_supplied_properties_are_set (fun _ _ _ => true) "a.lnk" (.string "a.lnk")
    [.string "update"] [] (Or.inr (Or.inr (Or.inl rfl)))

/-- Reading a key that holds a string as a path yields that string. -/
theorem Dictionary_Get_FilePath_string (d : Dictionary) (key : String) (out : base.FilePath)
    (s : String) (h : d.props.lookup key = some (.string s)) :
    d.Get Converter_FilePath_FromV8 key out = (true, s) := by
  simp [Dictionary.Get, h, Converter_FilePath_FromV8]

/-- Reading a key that holds `null` as a path succeeds and leaves `out` as it
was. -/
theorem Dictionary_Get_FilePath_null (d : Dictionary) (key : String) (out : base.FilePath)
    (h : d.props.lookup key = some .null) :
    d.Get Converter_FilePath_FromV8 key out = (true, out) := by
  simp [Dictionary.Get, h, Converter_FilePath_FromV8]

/-- Reading a key that holds neither a string nor `null` as a path fails. -/
theorem Dictionary_Get_FilePath_malformed (d : Dictionary) (key : String)
    (out : base.FilePath) (val : Value) (h : d.props.lookup key = some val)
    (hnull : val ≠ .null) (hstring : ∀ s, val ≠ .string s) :
    d.Get Converter_FilePath_FromV8 key out = (false, out) := by
  cases val with
  | null => exact absurd rfl hnull
  | string s => exact absurd rfl (hstring s)
  | _ => simp [Dictionary.Get, h, Converter_FilePath_FromV8]

/-- Reading a key that holds a string as a string yields that string. -/
theorem Dictionary_Get_string16_string (d : Dictionary) (key : String) (out : String)
    (s : String) (h : d.props.lookup key = some (.string s)) :
    d.Get Converter_string16_FromV8 key out = (true, s) := by
  simp [Dictionary.Get, h, Converter_string16_FromV8]

/-- Reading a key that holds a 32-bit integer as an integer yields it. -/
theorem Dictionary_Get_int_int32 (d : Dictionary) (key : String) (out : Int) (n : Int)
    (h : d.props.lookup key = some (.int n))
    (hlo : -2147483648 ≤ n) (hhi : n ≤ 2147483647) :
    d.Get Converter_int_FromV8 key out = (true, n) := by
  simp [Dictionary.Get, h, Converter_int_FromV8, hlo, hhi]

/-- Reading a key that holds no 32-bit integer as an integer fails. -/
theorem Dictionary_Get_int_malformed (d : Dictionary) (key : String) (out : Int)
    (val : Value) (h : d.props.lookup key = some val)
    (hint : ∀ n, val = .int n → ¬(-2147483648 ≤ n ∧ n ≤ 2147483647)) :
    d.Get Converter_int_FromV8 key out = (false, out) := by
  cases val with
  | int n =>
    have hn := hint n rfl
    simp [Dictionary.Get, h, Converter_int_FromV8, hn]
  | _ => simp [Dictionary.Get, h, Converter_int_FromV8]

/-- The record built by the property block, field by field and bit by bit, in
terms of its seven reads. -/
theorem WriteShortcutLink_properties_fields (d : Dictionary) :
    (WriteShortcutLink_properties d).target
      = (if (Dictionary.Get Converter_FilePath_FromV8 d "target" "").1 then
        (Dictionary.Get Converter_FilePath_FromV8 d "target" "").2 else "") ∧
    (WriteShortcutLink_properties d).isSet ShortcutProperties.PROPERTIES_TARGET
      = (Dictionary.Get Converter_FilePath_FromV8 d "target" "").1 ∧
    (WriteShortcutLink_properties d).working_dir
      = (if (Dictionary.Get Converter_FilePath_FromV8 d "cwd"
        (Dictionary.Get Converter_FilePath_FromV8 d "target" "").2).1 then
        (Dictionary.Get Converter_FilePath_FromV8 d "cwd"
        (Dictionary.Get Converter_FilePath_FromV8 d "target" "").2).2 else "") ∧
    (WriteShortcutLink_properties d).isSet ShortcutProperties.PROPERTIES_WORKING_DIR
      = (Dictionary.Get Converter_FilePath_FromV8 d "cwd"
        (Dictionary.Get Converter_FilePath_FromV8 d "target" "").2).1 ∧
    (WriteShortcutLink_properties d).arguments
      = (if (Dictionary.Get Converter_string16_FromV8 d "args" "").1 then
        (Dictionary.Get Converter_string16_FromV8 d "args" "").2 else "") ∧
    (WriteShortcutLink_properties d).isSet ShortcutProperties.PROPERTIES_ARGUMENTS
      = (Dictionary.Get Converter_string16_FromV8 d "args" "").1 ∧
    (WriteShortcutLink_properties d).description
      = (if (Dictionary.Get Converter_string16_FromV8 d "description"
        (Dictionary.Get Converter_string16_FromV8 d "args" "").2).1 then
        (Dictionary.Get Converter_string16_FromV8 d "description"
        (Dictionary.Get Converter_string16_FromV8 d "args" "").2).2 else "") ∧
    (WriteShortcutLink_properties d).isSet ShortcutProperties.PROPERTIES_DESCRIPTION
      = (Dictionary.Get Converter_string16_FromV8 d "description"
        (Dictionary.Get Converter_string16_FromV8 d "args" "").2).1 ∧
    (WriteShortcutLink_properties d).icon
      = (if (Dictionary.Get Converter_FilePath_FromV8 d "icon"
        (Dictionary.Get Converter_FilePath_FromV8 d "cwd"
        (Dictionary.Get Converter_FilePath_FromV8 d "target" "").2).2).1 &&
          (Dictionary.Get Converter_int_FromV8 d "iconIndex" 0).1 then
        (Dictionary.Get Converter_FilePath_FromV8 d "icon"
        (Dictionary.Get Converter_FilePath_FromV8 d "cwd"
        (Dictionary.Get Converter_FilePath_FromV8 d "target" "").2).2).2 else "") ∧
    (WriteShortcutLink_properties d).icon_index
      = (if (Dictionary.Get Converter_FilePath_FromV8 d "icon"
        (Dictionary.Get Converter_FilePath_FromV8 d "cwd"
        (Dictionary.Get Converter_FilePath_FromV8 d "target" "").2).2).1 &&
          (Dictionary.Get Converter_int_FromV8 d "iconIndex" 0).1 then
        (Dictionary.Get Converter_int_FromV8 d "iconIndex" 0).2 else -1) ∧
    (WriteShortcutLink_properties d).isSet ShortcutProperties.PROPERTIES_ICON
      = ((Dictionary.Get Converter_FilePath_FromV8 d "icon"
        (Dictionary.Get Converter_FilePath_FromV8 d "cwd"
        (Dictionary.Get Converter_FilePath_FromV8 d "target" "").2).2).1 &&
          (Dictionary.Get Converter_int_FromV8 d "iconIndex" 0).1) ∧
    (WriteShortcutLink_properties d).app_id
      = (if (Dictionary.Get Converter_string16_FromV8 d "appUserModelId"
        (Dictionary.Get Converter_string16_FromV8 d "description"
        (Dictionary.Get Converter_string16_FromV8 d "args" "").2).2).1 then
        (Dictionary.Get Converter_string16_FromV8 d "appUserModelId"
        (Dictionary.Get Converter_string16_FromV8 d "description"
        (Dictionary.Get Converter_string16_FromV8 d "args" "").2).2).2 else "") ∧
    (WriteShortcutLink_properties d).isSet ShortcutProperties.PROPERTIES_APP_ID
      = (Dictionary.Get Converter_string16_FromV8 d "appUserModelId"
        (Dictionary.Get Converter_string16_FromV8 d "description"
        (Dictionary.Get Converter_string16_FromV8 d "args" "").2).2).1 := by
  rcases h1 : Dictionary.Get Converter_FilePath_FromV8 d "target" "" with ⟨b1, p1⟩
  rcases h2 : Dictionary.Get Converter_FilePath_FromV8 d "cwd" p1 with ⟨b2, p2⟩
  rcases h3 : Dictionary.Get Converter_string16_FromV8 d "args" "" with ⟨b3, s3⟩
  rcases h4 : Dictionary.Get Converter_string16_FromV8 d "description" s3 with ⟨b4, s4⟩
  rcases h5 : Dictionary.Get Converter_FilePath_FromV8 d "icon" p2 with ⟨b5, p5⟩
  rcases h6 : Dictionary.Get Converter_int_FromV8 d "iconIndex" 0 with ⟨b6, i6⟩
  rcases h7 : Dictionary.Get Converter_string16_FromV8 d "appUserModelId" s4 with ⟨b7, s7⟩
  rw [WriteShortcutLink_properties_of_gets d b1 b2 b3 b4 b5 b6 b7 p1 p2 p5 s3 s4 s7 i6
    h1 h2 h3 h4 h5 h6 h7]
  have hbits := options_bits b1 b2 b3 b4 (b5 && b6) b7
  simp only [ShortcutProperties.isSet, ShortcutProperties.PROPERTIES_TARGET,
    ShortcutProperties.PROPERTIES_WORKING_DIR, ShortcutProperties.PROPERTIES_ARGUMENTS,
    ShortcutProperties.PROPERTIES_DESCRIPTION, ShortcutProperties.PROPERTIES_ICON,
    ShortcutProperties.PROPERTIES_APP_ID]
  exact ⟨trivial, hbits.1, trivial, hbits.2.1, trivial, hbits.2.2.1, trivial,
    hbits.2.2.2.1, trivial, trivial, hbits.2.2.2.2.1, trivial, hbits.2.2.2.2.2⟩


/-- The icon reads of a properties object in which `icon` is missing or neither
a string nor `null`, or `iconIndex` is missing or no 32-bit integer, do not both
succeed. -/
theorem icon_reads_fail (props : List (String × Value))
    (h : List.lookup "icon" props = none ∨
      (∃ val, List.lookup "icon" props = some val ∧ val ≠ Value.null ∧
        ∀ s, val ≠ Value.string s) ∨
      List.lookup "iconIndex" props = none ∨
      (∃ val, List.lookup "iconIndex" props = some val ∧
        ∀ n, val = Value.int n → ¬(-2147483648 ≤ n ∧ n ≤ 2147483647))) :
    ((Dictionary.Get Converter_FilePath_FromV8 ⟨props⟩ "icon" "").1 &&
      (Dictionary.Get Converter_int_FromV8 ⟨props⟩ "iconIndex" 0).1) = false := by
  rcases h with h | ⟨val, h, hnull, hstring⟩ | h | ⟨val, h, hint⟩
  · rw [Dictionary_Get_of_lookup_none _ ⟨props⟩ "icon" "" h]
    rfl
  · rw [Dictionary_Get_FilePath_malformed ⟨props⟩ "icon" "" val h hnull hstring]
    rfl
  · rw [Dictionary_Get_of_lookup_none _ ⟨props⟩ "iconIndex" 0 h]
    simp
  · rw [Dictionary_Get_int_malformed ⟨props⟩ "iconIndex" 0 val h hint]
    simp

/-- The icon path of the record when `icon` holds `null` and `iconIndex` a
32-bit integer: what the shared local `path` holds after the reads of `target`
and `cwd`, that is the `cwd` string when there is one, else the `target` string
when `cwd` is missing, else the empty path when both are missing. -/
theorem WriteShortcutLink_properties_null_icon_path (props : List (String × Value))
    (index : Int)
    (hicon : List.lookup "icon" props = some Value.null)
    (hindex : List.lookup "iconIndex" props = some (Value.int index))
    (hlo : -2147483648 ≤ index) (hhi : index ≤ 2147483647) :
    (∀ cwd : String, List.lookup "cwd" props = some (Value.string cwd) →
      (WriteShortcutLink_properties ⟨props⟩).icon = cwd) ∧
    (List.lookup "cwd" props = none →
      ∀ target : String, List.lookup "target" props = some (Value.string target) →
        (WriteShortcutLink_properties ⟨props⟩).icon = target) ∧
    (List.lookup "cwd" props = none → List.lookup "target" props = none →
      (WriteShortcutLink_properties ⟨props⟩).icon = "") := by
  obtain ⟨-, -, -, -, -, -, -, -, fi, -⟩ := WriteShortcutLink_properties_fields ⟨props⟩
  rw [fi]
  simp only [Dictionary_Get_FilePath_null ⟨props⟩ "icon" _ hicon,
    Dictionary_Get_int_int32 ⟨props⟩ "iconIndex" 0 index hindex hlo hhi]
  refine ⟨?_, ?_, ?_⟩
  · intro cwd h
    simp only [Dictionary_Get_FilePath_string ⟨props⟩ "cwd" _ cwd h]
    simp
  · intro hc target h
    simp only [Dictionary_Get_of_lookup_none _ ⟨props⟩ "cwd" _ hc,
      Dictionary_Get_FilePath_string ⟨props⟩ "target" _ target h]
    simp
  · intro hc ht
    simp only [Dictionary_Get_of_lookup_none _ ⟨props⟩ "cwd" _ hc,
      Dictionary_Get_of_lookup_none _ ⟨props⟩ "target" _ ht]
    simp

/-- C10, as stated, fails: with `icon` holding `null`, which is no usable icon
path, and `iconIndex` holding 7, the icon of the record handed to the platform
is not left untouched: it is marked as set, with index 7 and with the path read
for `target` just before. -/
theorem C10_null_icon_sets_icon :
    List.lookup "icon"
        [("target", Value.string "t"), ("icon", Value.null), ("iconIndex", Value.int 7)]
      = some Value.null ∧
    (WriteShortcutLink (fun _ _ _ => true) "a.lnk"
        (Arguments.afterFirst (.string "a.lnk")
          [.object [("target", .string "t"), ("icon", .null), ("iconIndex", .int 7)]])).calls
      = [⟨"a.lnk",
          { target := "t", working_dir := "", arguments := "", description := "",
            icon := "t", icon_index := 7, app_id := "", options := 17 },
          .SHORTCUT_CREATE_ALWAYS⟩] ∧
    ShortcutProperties.isSet
        { target := "t", working_dir := "", arguments := "", description := "",
          icon := "t", icon_index := 7, app_id := "", options := 17 }
        ShortcutProperties.PROPERTIES_ICON = true := by
  refine ⟨rfl, rfl, by decide⟩

/-- C10, amended: with the properties object present, writeShortcutLink throws
nothing and calls the platform once, whatever the icon keys hold.  When `icon`
is missing or neither a string nor `null`, or `iconIndex` is missing or no
32-bit integer, the icon path and icon index of the record handed over keep
their default-constructed content, the icon is not marked as set, and the
record is the one the same object without the two icon keys yields.  When
`icon` is a string and `iconIndex` a 32-bit integer the record carries exactly
those, marked as set; when `icon` is `null` and `iconIndex` a 32-bit integer the
icon is marked as set with that index.  In every case each of `target`, `cwd`,
`args`, `description`, `appUserModelId` supplied as a string is set to exactly
that string and marked, and each one not supplied keeps its default-constructed
content and is not marked. -/
theorem C10_icon_set_when_both_reads_succeed
    (platform : base.FilePath → ShortcutProperties → ShortcutOperation → Bool)
    (shortcut_path : base.FilePath) (first : Value) (mode : List Value)
    (props : List (String × Value)) (rest : List Value)
    (hmode : mode = [] ∨ mode = [.string "create"] ∨ mode = [.string "update"] ∨
      mode = [.string "replace"]) :
    ∃ op properties,
      (WriteShortcutLink platform shortcut_path
        (Arguments.afterFirst first (mode ++ .object props :: rest))).calls
        = [⟨shortcut_path, properties, op⟩] ∧
      (WriteShortcutLink platform shortcut_path
        (Arguments.afterFirst first (mode ++ .object props :: rest))).args.thrown = none ∧
      (WriteShortcutLink platform shortcut_path
        (Arguments.afterFirst first (mode ++ .object props :: rest))).ret
        = platform shortcut_path properties op ∧
      ((List.lookup "icon" props = none ∨
          (∃ val, List.lookup "icon" props = some val ∧ val ≠ Value.null ∧
            ∀ s, val ≠ Value.string s) ∨
          List.lookup "iconIndex" props = none ∨
          (∃ val, List.lookup "iconIndex" props = some val ∧
            ∀ n, val = Value.int n → ¬(-2147483648 ≤ n ∧ n ≤ 2147483647))) →
        properties.icon = ShortcutProperties.new.icon ∧
        properties.icon_index = ShortcutProperties.new.icon_index ∧
        properties.isSet ShortcutProperties.PROPERTIES_ICON = false ∧
        properties = WriteShortcutLink_properties
          ⟨List.filter (fun kv => kv.1 != "icon" && kv.1 != "iconIndex") props⟩) ∧
      (∀ (icon : String) (index : Int),
        List.lookup "icon" props = some (Value.string icon) →
        List.lookup "iconIndex" props = some (Value.int index) →
        -2147483648 ≤ index → index ≤ 2147483647 →
        properties.icon = icon ∧ properties.icon_index = index ∧
        properties.isSet ShortcutProperties.PROPERTIES_ICON = true) ∧
      (∀ index : Int,
        List.lookup "icon" props = some Value.null →
        List.lookup "iconIndex" props = some (Value.int index) →
        -2147483648 ≤ index → index ≤ 2147483647 →
        properties.icon_index = index ∧
        properties.isSet ShortcutProperties.PROPERTIES_ICON = true) ∧
      (∀ target : String, List.lookup "target" props = some (Value.string target) →
        properties.target = target ∧
        properties.isSet ShortcutProperties.PROPERTIES_TARGET = true) ∧
      (∀ cwd : String, List.lookup "cwd" props = some (Value.string cwd) →
        properties.working_dir = cwd ∧
        properties.isSet ShortcutProperties.PROPERTIES_WORKING_DIR = true) ∧
      (∀ arguments : String, List.lookup "args" props = some (Value.string arguments) →
        properties.arguments = arguments ∧
        properties.isSet ShortcutProperties.PROPERTIES_ARGUMENTS = true) ∧
      (∀ description : String,
        List.lookup "description" props = some (Value.string description) →
        properties.description = description ∧
        properties.isSet ShortcutProperties.PROPERTIES_DESCRIPTION = true) ∧
      (∀ app_id : String,
        List.lookup "appUserModelId" props = some (Value.string app_id) →
        properties.app_id = app_id ∧
        properties.isSet ShortcutProperties.PROPERTIES_APP_ID = true) ∧
      (List.lookup "target" props = none →
        properties.target = ShortcutProperties.new.target ∧
        properties.isSet ShortcutProperties.PROPERTIES_TARGET = false) ∧
      (List.lookup "cwd" props = none →
        properties.working_dir = ShortcutProperties.new.working_dir ∧
        properties.isSet ShortcutProperties.PROPERTIES_WORKING_DIR = false) ∧
      (List.lookup "args" props = none →
        properties.arguments = ShortcutProperties.new.arguments ∧
        properties.isSet ShortcutProperties.PROPERTIES_ARGUMENTS = false) ∧
      (List.lookup "description" props = none →
        properties.description = ShortcutProperties.new.description ∧
        properties.isSet ShortcutProperties.PROPERTIES_DESCRIPTION = false) ∧
      (List.lookup "appUserModelId" props = none →
        properties.app_id = ShortcutProperties.new.app_id ∧
        properties.isSet ShortcutProperties.PROPERTIES_APP_ID = false) := by
  obtain ⟨op, hcalls, hthrown, hret⟩ := WriteShortcutLink_with_mode platform shortcut_path
    first mode props rest hmode
  obtain ⟨ft, bt, fw, bw, fa, ba, fd, bd, -, fx, bi, fp, bp⟩ :=
    WriteShortcutLink_properties_fields ⟨props⟩
  obtain ⟨gt, gw, ga, gd, -, gp⟩ := WriteShortcutLink_properties_frame ⟨props⟩
  refine ⟨op, WriteShortcutLink_properties ⟨props⟩, hcalls, hthrown, hret,
    ?_, ?_, ?_, ?_, ?_, ?_, ?_, ?_, gt, gw, ga, gd, gp⟩
  · intro h
    have hfail := icon_reads_fail props h
    obtain ⟨h1, h2, h3⟩ := WriteShortcutLink_properties_icon_unusable props hfail
    refine ⟨h1, h2, ?_, h3⟩
    rw [WriteShortcutLink_properties_icon_bit props, hfail]
  · intro icon index hicon hindex hlo hhi
    obtain ⟨h1, h2⟩ :=
      WriteShortcutLink_properties_icon_usable props icon index hicon hindex hlo hhi
    refine ⟨h1, h2, ?_⟩
    rw [WriteShortcutLink_properties_icon_bit props,
      Dictionary_Get_FilePath_string ⟨props⟩ "icon" "" icon hicon,
      Dictionary_Get_int_int32 ⟨props⟩ "iconIndex" 0 index hindex hlo hhi]
    rfl
  · intro index hicon hindex hlo hhi
    rw [fx, bi]
    simp only [Dictionary_Get_FilePath_null ⟨props⟩ "icon" _ hicon,
      Dictionary_Get_int_int32 ⟨props⟩ "iconIndex" 0 index hindex hlo hhi]
    simp
  · intro target h
    rw [ft, bt]
    simp only [Dictionary_Get_FilePath_string ⟨props⟩ "target" _ target h]
    simp
  · intro cwd h
    rw [fw, bw]
    simp only [Dictionary_Get_FilePath_string ⟨props⟩ "cwd" _ cwd h]
    simp
  · intro arguments h
    rw [fa, ba]
    simp only [Dictionary_Get_string16_string ⟨props⟩ "args" _ arguments h]
    simp
  · intro description h
    rw [fd, bd]
    simp only [Dictionary_Get_string16_string ⟨props⟩ "description" _ description h]
    simp
  · intro app_id h
    rw [fp, bp]
    simp only [Dictionary_Get_string16_string ⟨props⟩ "appUserModelId" _ app_id h]
    simp

/-- Witness of `C10_icon_set_when_both_reads_succeed`: `target` and `icon`
supplied, `iconIndex` missing, mode omitted. -/
theorem C10_icon_set_when_both_reads_succeed_witness :
    ∃ op properties,
      (WriteShortcutLink (fun _ _ _ => true) "a.lnk"
        (Arguments.afterFirst (.string "a.lnk") ([] ++ .object
            [("target", Value.string "x"), ("icon", Value.string "i")] :: []))).calls
        = [⟨"a.lnk", properties, op⟩] ∧
      (WriteShortcutLink (fun _ _ _ => true) "a.lnk"
        (Arguments.afterFirst (.string "a.lnk") ([] ++ .object
            [("target", Value.string "x"), ("icon", Value.string "i")] :: []))).args.thrown = none ∧
      (WriteShortcutLink (fun _ _ _ => true) "a.lnk"
        (Arguments.afterFirst (.string "a.lnk") ([] ++ .object
            [("target", Value.string "x"), ("icon", Value.string "i")] :: []))).ret
        = true ∧
      ((List.lookup "icon" [("target", Value.string "x"), ("icon", Value.string "i")] = none ∨
          (∃ val, List.lookup "icon"
              [("target", Value.string "x"), ("icon", Value.string "i")] = some val ∧ val ≠ Value.null ∧
            ∀ s, val ≠ Value.string s) ∨
          List.lookup "iconIndex"
              [("target", Value.string "x"), ("icon", Value.string "i")] = none ∨
          (∃ val, List.lookup "iconIndex"
              [("target", Value.string "x"), ("icon", Value.string "i")] = some val ∧
            ∀ n, val = Value.int n → ¬(-2147483648 ≤ n ∧ n ≤ 2147483647))) →
        properties.icon = ShortcutProperties.new.icon ∧
        properties.icon_index = ShortcutProperties.new.icon_index ∧
        properties.isSet ShortcutProperties.PROPERTIES_ICON = false ∧
        properties = WriteShortcutLink_properties
          ⟨List.filter (fun kv => kv.1 != "icon" && kv.1 != "iconIndex")
              [("target", Value.string "x"), ("icon", Value.string "i")]⟩) ∧
      (∀ (icon : String) (index : Int),
        List.lookup "icon"
            [("target", Value.string "x"), ("icon", Value.string "i")] = some (Value.string icon) →
        List.lookup "iconIndex"
            [("target", Value.string "x"), ("icon", Value.string "i")] = some (Value.int index) →
        -2147483648 ≤ index → index ≤ 2147483647 →
        properties.icon = icon ∧ properties.icon_index = index ∧
        properties.isSet ShortcutProperties.PROPERTIES_ICON = true) ∧
      (∀ index : Int,
        List.lookup "icon"
            [("target", Value.string "x"), ("icon", Value.string "i")] = some Value.null →
        List.lookup "iconIndex"
            [("target", Value.string "x"), ("icon", Value.string "i")] = some (Value.int index) →
        -2147483648 ≤ index → index ≤ 2147483647 →
        properties.icon_index = index ∧
        properties.isSet ShortcutProperties.PROPERTIES_ICON = true) ∧
      (∀ target : String, List.lookup "target"
          [("target", Value.string "x"), ("icon", Value.string "i")] = some (Value.string target) →
        properties.target = target ∧
        properties.isSet ShortcutProperties.PROPERTIES_TARGET = true) ∧
      (∀ cwd : String, List.lookup "cwd"
          [("target", Value.string "x"), ("icon", Value.string "i")] = some (Value.string cwd) →
        properties.working_dir = cwd ∧
        properties.isSet ShortcutProperties.PROPERTIES_WORKING_DIR = true) ∧
      (∀ arguments : String, List.lookup "args"
          [("target", Value.string "x"), ("icon", Value.string "i")] = some (Value.string arguments) →
        properties.arguments = arguments ∧
        properties.isSet ShortcutProperties.PROPERTIES_ARGUMENTS = true) ∧
      (∀ description : String,
        List.lookup "description"
            [("target", Value.string "x"), ("icon", Value.string "i")] = some (Value.string description) →
        properties.description = description ∧
        properties.isSet ShortcutProperties.PROPERTIES_DESCRIPTION = true) ∧
      (∀ app_id : String,
        List.lookup "appUserModelId"
            [("target", Value.string "x"), ("icon", Value.string "i")] = some (Value.string app_id) →
        properties.app_id = app_id ∧
        properties.isSet ShortcutProperties.PROPERTIES_APP_ID = true) ∧
      (List.lookup "target" [("target", Value.string "x"), ("icon", Value.string "i")] = none →
        properties.target = ShortcutProperties.new.target ∧
        properties.isSet ShortcutProperties.PROPERTIES_TARGET = false) ∧
      (List.lookup "cwd" [("target", Value.string "x"), ("icon", Value.string "i")] = none →
        properties.working_dir = ShortcutProperties.new.working_dir ∧
        properties.isSet ShortcutProperties.PROPERTIES_WORKING_DIR = false) ∧
      (List.lookup "args" [("target", Value.string "x"), ("icon", Value.string "i")] = none →
        properties.arguments = ShortcutProperties.new.arguments ∧
        properties.isSet ShortcutProperties.PROPERTIES_ARGUMENTS = false) ∧
      (List.lookup "description" [("target", Value.string "x"), ("icon", Value.string "i")] = none →
        properties.description = ShortcutProperties.new.description ∧
        properties.isSet ShortcutProperties.PROPERTIES_DESCRIPTION = false) ∧
      (List.lookup "appUserModelId"
          [("target", Value.string "x"), ("icon", Value.string "i")] = none →
        properties.app_id = ShortcutProperties.new.app_id ∧
        properties.isSet ShortcutProperties.PROPERTIES_APP_ID = false) :=
  C10_icon_set_when_both_reads_succeed (fun _ _ _ => true) "a.lnk" (.string "a.lnk") []
    [("target", Value.string "x"), ("icon", Value.string "i")] [] (Or.inl rfl)

end atom_api_shell
